import Mathlib

set_option maxHeartbeats 2000000
set_option maxRecDepth 4000

/-!
Shallow embedding of `tap_redshift/__init__.py` (the only source file of the
repository).  Python runtime values are modelled by `TapRedshift.Val`; the
singer state document by `TapRedshift.TapState`; generator-based message
emission by functions returning lists of `TapRedshift.Msg`.  Database access
(query results) is modelled by passing the fetched rows as explicit inputs,
since the queries only determine which rows the cursor yields.  Exceptions
raised while a generator runs are modelled by an `ok : Bool` flag: the
messages yielded before the exception are kept and nothing after is emitted.
-/

namespace TapRedshift

/-- A JSON-like Python runtime value as used by the tap: `None`, booleans,
integers, strings, `datetime.datetime` objects (carrying their ISO rendering
without the trailing Z), flat arrays of strings and flat string-to-string
objects (the only compound metadata values the source constructs). -/
inductive Val : Type where
  | null : Val
  | b : Bool → Val
  | i : Int → Val
  | s : String → Val
  | dt : String → Val
  | strs : List String → Val
  | kv : List (String × String) → Val
deriving DecidableEq, Repr

/-- Python truthiness of a `Val` (`if value:`). -/
def Val.truthy : Val → Bool
  | .null => false
  | .b x => x
  | .i n => n ≠ 0
  | .s x => x ≠ ""
  | .dt x => x ≠ ""
  | .strs xs => xs ≠ []
  | .kv xs => xs ≠ []

/-- Lookup in an (insertion-ordered) Python dict modelled as an association
list: the first binding of the key wins (keys are unique by construction,
since insertion updates in place). -/
def assocFind (k : String) : List (String × α) → Option α
  | [] => none
  | (k', v) :: rest => if k' = k then some v else assocFind k rest

/-- `d[k] = v` on a Python dict: update the existing binding in place
(keeping its position) or append a fresh binding at the end. -/
def assocUpsert (l : List (String × α)) (k : String) (v : α) : List (String × α) :=
  match l with
  | [] => [(k, v)]
  | (k', v') :: rest =>
      if k' = k then (k, v) :: rest else (k', v') :: assocUpsert rest k v

/-- The singer state document:
`{currently_syncing?: ..., bookmarks?: {tap_stream_id: {key: value}}}`.
`none` means the key is absent from the document (Python distinguishes an
absent key from a key bound to `None` only for dict equality; `.get` flattens
both to `None`). -/
structure TapState where
  currently_syncing : Option Val := none
  bookmarks : Option (List (String × List (String × Val))) := none
deriving DecidableEq, Repr

/-- `state.get('bookmarks', {}).get(tap_stream_id)`:
the bookmark dict of one stream, `none` when absent. -/
def lookupBms (s : TapState) (t : String) : Option (List (String × Val)) :=
  assocFind t (s.bookmarks.getD [])

/-- `singer.get_bookmark(state, tap_stream_id, key)`:
`state.get('bookmarks', {}).get(tap_stream_id, {}).get(key)`, with Python's
`None` for every missing level (absent and bound-to-None flatten together). -/
def get_bookmark (s : TapState) (t k : String) : Val :=
  (assocFind k ((lookupBms s t).getD [])).getD Val.null

/-- `singer.write_bookmark(state, tap_stream_id, key, val)`:
ensures `state['bookmarks'][tap_stream_id]` exists and sets `key` to `val`. -/
def write_bookmark (s : TapState) (t k : String) (v : Val) : TapState :=
  let bms := s.bookmarks.getD []
  let entry := (assocFind t bms).getD []
  { s with bookmarks := some (assocUpsert bms t (assocUpsert entry k v)) }

/-- The raw (presence-sensitive) binding of one bookmark key:
`none` when the key is absent, `some v` when it is bound to `v`
(possibly `Val.null`, i.e. bound to Python `None`). -/
def bmEntryLookup (s : TapState) (t k : String) : Option Val :=
  (lookupBms s t).bind (assocFind k)

/-- `singer.get_currently_syncing(state)`: `state.get('currently_syncing')`. -/
def get_currently_syncing (s : TapState) : Val :=
  s.currently_syncing.getD Val.null

/-- `singer.set_currently_syncing(state, tap_stream_id)`:
binds the `currently_syncing` key (possibly to `None`). -/
def set_currently_syncing (s : TapState) (v : Val) : TapState :=
  { s with currently_syncing := some v }

/-! ## Type Mapper (`schema_for_column`) -/

/-- The `type` attribute of a singer `Schema` as this tap produces it:
either one bare type name or a JSON list of type names. -/
inductive SchemaType : Type where
  | single : String → SchemaType
  | many : List String → SchemaType
deriving DecidableEq, Repr

/-- A singer `Schema` object restricted to the attributes this tap sets
(unset attributes are `none`, matching singer's defaults). -/
structure Schema' where
  type_ : Option SchemaType := none
  inclusion : Option String := none
  format : Option String := none
  minimum : Option Int := none
  maximum : Option Int := none
  description : Option String := none
deriving DecidableEq, Repr

/-- `STRING_TYPES` from the source. -/
def stringTypes : List String :=
  ["char", "character", "nchar", "bpchar", "text", "varchar",
   "character varying", "nvarchar"]

/-- `BYTES_FOR_INTEGER_TYPE` from the source. -/
def bytesForIntegerType (t : String) : Option Nat :=
  if t = "int2" then some 2
  else if t = "int" then some 4
  else if t = "int4" then some 4
  else if t = "int8" then some 8
  else none

/-- `FLOAT_TYPES` from the source. -/
def floatTypes : List String := ["float", "float4", "float8"]

/-- `DATE_TYPES` from the source. -/
def dateTypes : List String := ["date"]

/-- `DATETIME_TYPES` from the source. -/
def datetimeTypes : List String :=
  ["timestamp", "timestamptz", "timestamp without time zone",
   "timestamp with time zone"]

/-- `GEOMETRY` from the source. -/
def geometryTypes : List String := ["geometry"]

/-- `schema_for_column(c)` (lines 141-190): maps a column's native type and
`is_nullable` flag to a singer schema.  The input dict `c` is passed as its
`type` and `nullable` fields. -/
def schema_for_column (ctype cnullable : String) : Schema' :=
  let t := ctype.toLower
  let n := cnullable.toLower
  let base : Schema' :=
    if t = "bool" then
      { inclusion := some "available", type_ := some (.single "boolean") }
    else
      match bytesForIntegerType t with
      | some bytes =>
          { inclusion := some "available", type_ := some (.single "integer"),
            minimum := some (0 - 2 ^ (bytes * 8 - 1)),
            maximum := some (2 ^ (bytes * 8 - 1) - 1) }
      | none =>
          if t ∈ floatTypes then
            { inclusion := some "available", type_ := some (.single "number") }
          else if t = "numeric" then
            { inclusion := some "available", type_ := some (.single "number") }
          else if t ∈ stringTypes then
            { inclusion := some "available", type_ := some (.single "string") }
          else if t ∈ datetimeTypes then
            { inclusion := some "available", type_ := some (.single "string"),
              format := some "date-time" }
          else if t ∈ dateTypes then
            { inclusion := some "available", type_ := some (.single "string"),
              format := some "date" }
          else if t ∈ geometryTypes then
            { inclusion := some "available", type_ := some (.single "string"),
              format := some "symon.geo" }
          else
            { type_ := none, inclusion := some "unsupported",
              description := some ("Unsupported column type " ++ t) }
  if n = "yes" then
    match base.type_ with
    | some (.single x) => { base with type_ := some (.many ["null", x]) }
    | some (.many xs) => { base with type_ := some (.many ("null" :: xs)) }
    | none => { base with type_ := some (.many ["null"]) }
  else base

/-- Whether a schema's `type` attribute includes the JSON type `null`. -/
def includesNull : Option SchemaType → Bool
  | some (.single x) => x = "null"
  | some (.many xs) => xs.contains "null"
  | none => false

/-- The fixed classification table of `schema_for_column`: native types with
a non-`unsupported` mapping. -/
def supportedType (t : String) : Bool :=
  decide (t = "bool") || (bytesForIntegerType t).isSome ||
  decide (t ∈ floatTypes) || decide (t = "numeric") ||
  decide (t ∈ stringTypes) || decide (t ∈ datetimeTypes) ||
  decide (t ∈ dateTypes) || decide (t ∈ geometryTypes)

/-! ## Catalog entries and messages -/

/-- A resolved singer `CatalogEntry` as consumed by `sync_table`,
`generate_messages` and `build_state`: `properties` is
`schema.properties` (an insertion-ordered dict) and `streamMd` is the
stream-level (`()` breadcrumb) submap of `metadata.to_map(entry.metadata)`. -/
structure CatalogEntry where
  tap_stream_id : String
  table : String
  stream : String
  database : String
  properties : List (String × Schema')
  streamMd : List (String × Val)
deriving DecidableEq, Repr

/-- `metadata.to_map(catalog_entry.metadata).get((), {}).get(key)`:
stream-level metadata lookup, flattened to `Val.null` when absent. -/
def mdGet (e : CatalogEntry) (k : String) : Val :=
  (assocFind k e.streamMd).getD Val.null

/-- `list(catalog_entry.schema.properties.keys())`. -/
def cols (e : CatalogEntry) : List String :=
  e.properties.map Prod.fst

/-- A singer output message as emitted by this tap. -/
inductive Msg : Type where
  | schemaMsg : String → List (String × Schema') → Val → Val → Msg
  | recordMsg : String → List (String × Val) → Val → String → Msg
  | activateVersionMsg : String → Val → Msg
  | stateMsg : TapState → Msg
deriving DecidableEq, Repr

/-- Whether a message is a `RECORD` message. -/
def isRecord : Msg → Bool
  | .recordMsg _ _ _ _ => true
  | _ => false

/-- Whether a message is an `ACTIVATE_VERSION` message. -/
def isAV : Msg → Bool
  | .activateVersionMsg _ _ => true
  | _ => false

/-- Whether a message is a `STATE` message. -/
def isState : Msg → Bool
  | .stateMsg _ => true
  | _ => false

/-- Number of `RECORD` messages in a list. -/
def countRecords (l : List Msg) : Nat := (l.filter isRecord).length

/-- Number of `ACTIVATE_VERSION` messages in a list. -/
def countAV (l : List Msg) : Nat := (l.filter isAV).length

/-! ## Sync engine (`sync_table`, lines 260-386) -/

/-- `get_stream_version(tap_stream_id, state)`:
`get_bookmark(...) or int(time.time() * 1000)` — Python `or` falls through
on every falsy value.  The clock reading is passed in as `fresh`. -/
def get_stream_version (t : String) (s : TapState) (fresh : Int) : Val :=
  let v := get_bookmark s t "version"
  if v.truthy then v else Val.i fresh

/-- The value conversion of `row_to_record`: `datetime.datetime` values are
rendered as `isoformat('T') + 'Z'`; everything else is kept as is. -/
def convCell : Val → Val
  | .dt x => .s (x ++ "Z")
  | v => v

/-- `dict(zip(columns, row_to_persist))` of `row_to_record`:
`zip` truncates to the shorter list; column names are unique, so the
association list is the dict. -/
def mkRecord (columns : List String) (row : List Val) : List (String × Val) :=
  columns.zip (row.map convCell)

/-- `record_message.record[replication_key]` (a Python dict indexing whose
`KeyError` the caller lets escape): `none` models the raised `KeyError`. -/
def recordGet (record : List (String × Val)) (rk : Val) : Option Val :=
  match rk with
  | .s k => assocFind k record
  | _ => none

/-- Result of running (a suffix of) the `sync_table` generator: the messages
it yielded, the state object after its mutations, and whether it finished
without raising (`ok = false`: an exception escaped after the listed
messages were yielded). -/
structure SyncOut where
  msgs : List Msg
  state : TapState
  ok : Bool
deriving DecidableEq, Repr

/-- The row loop of `sync_table` (lines 355-379): for each fetched row,
increment `rows_saved`, yield the `RECORD` message, advance the
`replication_key_value` bookmark when a replication key is configured
(line 371 tests `is not None`), and yield a deep-copied `STATE` snapshot
after every 1000th record.  A `KeyError` on the bookmark advance aborts the
generator after the record was already yielded. -/
def sync_rows (e : CatalogEntry) (rk sv : Val) (te : String) :
    TapState → Nat → List (List Val) → SyncOut
  | st, _, [] => ⟨[], st, true⟩
  | st, saved, row :: rest =>
      let saved' := saved + 1
      let record := mkRecord (cols e) row
      let rm := Msg.recordMsg e.tap_stream_id record sv te
      if rk = Val.null then
        let cp := if saved' % 1000 = 0 then [Msg.stateMsg st] else []
        let out := sync_rows e rk sv te st saved' rest
        ⟨rm :: (cp ++ out.msgs), out.state, out.ok⟩
      else
        match recordGet record rk with
        | none => ⟨[rm], st, false⟩
        | some v =>
            let st' := write_bookmark st e.tap_stream_id "replication_key_value" v
            let cp := if saved' % 1000 = 0 then [Msg.stateMsg st'] else []
            let out := sync_rows e rk sv te st' saved' rest
            ⟨rm :: (cp ++ out.msgs), out.state, out.ok⟩

/-- Lines 331-346 of `sync_table`, reduced to their failure modes (the
computed `replication_key_value` only parameterizes the SQL query, whose
result set is the `rows` input of the model): with a truthy replication key,
a falsy `replication_key_value` bookmark together with a missing
`start_date` raises (`None.isoformat()`), and otherwise
`entry_schema.properties[replication_key]` raises `KeyError` when the key is
not a column of the entry.  `fsd` is the already-parsed start date
(`datetime.strptime` of a malformed configured date raises before any
message is yielded, outside this model). -/
def rkv_check (e : CatalogEntry) (st : TapState) (t : String) (rk : Val)
    (fsd : Option String) : Bool :=
  if rk.truthy then
    let bkm := get_bookmark st t "replication_key_value"
    if bkm.truthy then
      match rk with
      | .s k => (assocFind k e.properties).isSome
      | _ => false
    else
      match fsd with
      | none => false
      | some _ =>
          match rk with
          | .s k => (assocFind k e.properties).isSome
          | _ => false
  else true

/-- The body of `sync_table` past its two early exits (lines 290-386):
everything from the stream-version computation to the trailing state
snapshot. -/
def sync_table_body (e : CatalogEntry) (state0 : TapState)
    (rows : List (List Val)) (fsd : Option String) (fresh_version : Int)
    (te : String) : SyncOut :=
  let tsid := e.tap_stream_id
  let rk := mdGet e "replication-key"
  let bookmark_is_empty := lookupBms state0 tsid = none
  let sv := get_stream_version tsid state0 fresh_version
  let st1 := write_bookmark state0 tsid "version" sv
  let avm := Msg.activateVersionMsg tsid sv
  let pre := if rk.truthy ∨ bookmark_is_empty then [avm] else []
  if rkv_check e st1 tsid rk fsd then
    let out := sync_rows e rk sv te st1 0 rows
    if out.ok then
      if rk.truthy then
        ⟨pre ++ out.msgs ++ [Msg.stateMsg out.state], out.state, true⟩
      else
        let st2 := write_bookmark out.state tsid "version" Val.null
        ⟨pre ++ out.msgs ++ [avm, Msg.stateMsg st2], st2, true⟩
    else ⟨pre ++ out.msgs, out.state, false⟩
  else ⟨pre, st1, false⟩

/-- `sync_table(connection, catalog_entry, state)` (lines 279-386), run to
exhaustion.  `rows` is the result set of the built query, `fsd` the parsed
`start_date` config, `fresh_version` the millisecond clock reading used when
no truthy version bookmark exists, `te` the `utils.now()` extraction time. -/
def sync_table (e : CatalogEntry) (state0 : TapState) (rows : List (List Val))
    (fsd : Option String) (fresh_version : Int) (te : String) : SyncOut :=
  if cols e = [] then ⟨[], state0, true⟩
  else if e.table.data.count '.' ≠ 1 then
    -- `schema, table = catalog_entry.table.split('.')` raises before any
    -- yield unless the split has exactly two parts, i.e. exactly one dot
    ⟨[], state0, false⟩
  else sync_table_body e state0 rows fsd fresh_version te

/-! ## `generate_messages` (lines 389-424)

`resolve.resolve_catalog` and `discover_catalog` run first in the source;
the resolver module is not part of this file's source, so the model takes
the already-resolved catalog (paired with each stream's query result set,
clock reading and extraction time) as input. -/

/-- One resolved stream together with the external inputs its sync uses. -/
structure StreamRun where
  entry : CatalogEntry
  rows : List (List Val)
  fresh_version : Int
  time_extracted : String
deriving Repr

/-- Result of running the `generate_messages` generator. -/
structure GenOut where
  msgs : List Msg
  ok : Bool
deriving DecidableEq, Repr

/-- The per-stream loop of `generate_messages` plus the final
`currently_syncing` clearing: for each stream, mark it as currently
syncing, yield a deep-copied `STATE`, yield the `SCHEMA` message, then run
`sync_table` (which mutates the shared state object); an exception escaping
`sync_table` aborts the whole generator. -/
def generate_messages (streams : List StreamRun) (state : TapState)
    (fsd : Option String) : GenOut :=
  match streams with
  | [] =>
      let st := set_currently_syncing state Val.null
      ⟨[Msg.stateMsg st], true⟩
  | sr :: rest =>
      let e := sr.entry
      let st := set_currently_syncing state (Val.s e.tap_stream_id)
      let key_properties :=
        if (mdGet e "is-view").truthy then mdGet e "view-key-properties"
        else mdGet e "table-key-properties"
      let bookmark_properties := mdGet e "replication-key"
      let m1 := Msg.stateMsg st
      let m2 := Msg.schemaMsg e.tap_stream_id e.properties key_properties
        bookmark_properties
      let out := sync_table e st sr.rows fsd sr.fresh_version sr.time_extracted
      if out.ok then
        let g := generate_messages rest out.state fsd
        ⟨m1 :: m2 :: (out.msgs ++ g.msgs), g.ok⟩
      else ⟨m1 :: m2 :: out.msgs, false⟩

/-! ## State builder (`build_state`, lines 443-490) -/

/-- The per-stream body of `build_state`'s loop over `catalog.streams`. -/
def build_state_step (raw : TapState) (st : TapState) (e : CatalogEntry) :
    TapState :=
  let t := e.tap_stream_id
  let replication_method := mdGet e "replication-method"
  let raw_stream_version := get_bookmark raw t "version"
  if replication_method = Val.s "INCREMENTAL" then
    let rk := mdGet e "replication-key"
    let st := write_bookmark st t "replication_key" rk
    let raw_rk := get_bookmark raw t "replication_key"
    let st :=
      if raw_rk = rk then
        write_bookmark st t "replication_key_value"
          (get_bookmark raw t "replication_key_value")
      else st
    if raw_stream_version ≠ Val.null then
      write_bookmark st t "version" raw_stream_version
    else st
  else if replication_method = Val.s "FULL_TABLE" ∧
      raw_stream_version = Val.null then
    write_bookmark st t "version" raw_stream_version
  else st

/-- `build_state(raw_state, catalog)`: derives the initial replication state
from prior persisted state and the resolved catalog. -/
def build_state (raw : TapState) (catalog : List CatalogEntry) : TapState :=
  let cs := get_currently_syncing raw
  let st0 : TapState := {}
  let st1 := if cs.truthy then set_currently_syncing st0 cs else st0
  catalog.foldl (build_state_step raw) st1

/-! ## Discovery (`discover_catalog`, `do_discover`, lines 54-138) -/

/-- One row of the `INFORMATION_SCHEMA.Columns` query, already split off its
leading `table_name` component: `(ordinal_position, column_name, udt_name,
is_nullable)`. -/
structure ColumnSpec where
  pos : Int
  name : String
  type_ : String
  nullable : String
deriving DecidableEq, Repr

/-- `itertools.groupby` keyed on the first component: groups *consecutive*
rows sharing a key (the discovery queries sort by table name). -/
def groupRuns : List (String × α) → List (String × List α)
  | [] => []
  | (k, v) :: rest =>
      match groupRuns rest with
      | [] => [(k, [v])]
      | (k', vs) :: gs =>
          if k' = k then (k, v :: vs) :: gs else (k, [v]) :: (k', vs) :: gs

/-- A Python dict built from a list of key/value pairs
(`dict(pairs)` / a dict comprehension): later bindings win. -/
def dictOf (l : List (String × α)) : List (String × α) :=
  l.foldl (fun acc p => assocUpsert acc p.1 p.2) []

/-- A metadata breadcrumb: the stream level `()` or `('properties', col)`. -/
def Breadcrumb : Type := Option String
deriving instance DecidableEq, Repr for Breadcrumb

/-- `singer.metadata.write(mdata, breadcrumb, k, val)` on the compiled map. -/
def mdWrite (m : List (Breadcrumb × List (String × Val))) (bc : Breadcrumb)
    (k : String) (v : Val) : List (Breadcrumb × List (String × Val)) :=
  match m with
  | [] => [(bc, [(k, v)])]
  | (bc', kvs) :: rest =>
      if bc' = bc then (bc, assocUpsert kvs k v) :: rest
      else (bc', kvs) :: mdWrite rest bc k v

/-- The per-column metadata writes of `create_column_metadata`. -/
def columnMdWrites (m : List (Breadcrumb × List (String × Val)))
    (c : ColumnSpec) : List (Breadcrumb × List (String × Val)) :=
  let sch := schema_for_column c.type_ c.nullable
  let m := mdWrite m (some c.name) "selected-by-default"
    (.b (sch.inclusion ≠ some "unsupported"))
  let m := mdWrite m (some c.name) "sql-datatype" (.s c.type_.toLower)
  mdWrite m (some c.name) "inclusion"
    ((sch.inclusion.map Val.s).getD Val.null)

/-- `create_column_metadata(db_name, schema_name, cols, is_view,
key_properties)` (lines 193-230), as the compiled breadcrumb map
(`metadata.to_list` only reshapes it for serialization). -/
def create_column_metadata (db_name schema_name : String)
    (cs : List ColumnSpec) (is_view : Bool) (key_properties : List String) :
    List (Breadcrumb × List (String × Val)) :=
  let m : List (Breadcrumb × List (String × Val)) := []
  let m := mdWrite m none "selected-by-default" (.b false)
  let m := mdWrite m none "table-key-properties" (.strs key_properties)
  let m := mdWrite m none "is-view" (.b is_view)
  let m := mdWrite m none "schema-name" (.s schema_name)
  let m := mdWrite m none "database-name" (.s db_name)
  let valid_rep_keys :=
    (cs.filter (fun c => c.type_ ∈ datetimeTypes)).map ColumnSpec.name
  let m := cs.foldl columnMdWrites m
  if valid_rep_keys ≠ [] then
    mdWrite m none "valid-replication-keys" (.strs valid_rep_keys)
  else
    mdWrite m none "forced-replication-method"
      (.kv [("replication-method", "FULL_TABLE"),
            ("reason", "No replication keys found from table")])

/-- One entry of the discovered catalog document (lines 115-122). -/
structure DiscoveredEntry where
  tap_stream_id : String
  table_name : String
  stream : String
  schemaProperties : List (String × Schema')
  metadataMap : List (Breadcrumb × List (String × Val))
  column_order : List String
deriving DecidableEq, Repr

/-- The `key_properties` list comprehension of `discover_catalog`
(lines 106-108): for each primary-key column, in order, Python indexes
`schema.properties[column]` and keeps the column when its inclusion is not
`unsupported`; the indexing raises `KeyError` — modelled as `none` — as
soon as a primary-key column is missing from the fetched column list. -/
def pk_key_properties (props : List (String × Schema')) :
    List String → Option (List String)
  | [] => some []
  | column :: rest =>
      match assocFind column props with
      | none => none
      | some sch =>
          match pk_key_properties props rest with
          | none => none
          | some ks =>
              some (if sch.inclusion ≠ some "unsupported" then
                column :: ks else ks)

/-- The catalog entry built for one table group (lines 99-124); `none`
models the `KeyError` raised while computing `key_properties` when a
primary-key row names a column absent from the column query's rows. -/
def discover_entry (db_name db_schema : String)
    (table_pks : List (String × List String))
    (table_types : List (String × String))
    (table_name : String) (cs : List ColumnSpec) : Option DiscoveredEntry :=
  let qualified := db_schema ++ "." ++ table_name
  let props := cs.foldl
    (fun acc c => assocUpsert acc c.name (schema_for_column c.type_ c.nullable)) []
  match pk_key_properties props ((assocFind table_name table_pks).getD []) with
  | none => none
  | some key_properties =>
      let is_view := assocFind table_name table_types = some "VIEW"
      some { tap_stream_id := db_name ++ "." ++ qualified
             table_name := qualified
             stream := table_name
             schemaProperties := props
             metadataMap :=
               create_column_metadata db_name db_schema cs is_view
                 key_properties
             column_order := props.map Prod.fst }

/-- The entry-building loop of `discover_catalog` (lines 99-124), table by
table in query order; an exception while building one entry propagates,
discarding the whole catalog (`none`). -/
def discover_tables (db_name db_schema : String)
    (table_pks : List (String × List String))
    (table_types : List (String × String)) :
    List (String × List ColumnSpec) → Option (List DiscoveredEntry)
  | [] => some []
  | (table_name, cs) :: rest =>
      match discover_entry db_name db_schema table_pks table_types
          table_name cs with
      | none => none
      | some entry =>
          match discover_tables db_name db_schema table_pks table_types
              rest with
          | none => none
          | some entries => some (entry :: entries)

/-- `discover_catalog(conn, db_schema)` (lines 54-128): the three metadata
query results are passed in as `table_specs` (`table_name, table_type`),
`column_specs` (ordered column rows) and `pk_specs` (`table_name,
column_name`); `db_name` is the connection's `dbname` parameter.  `none`
models an escaping `KeyError` (inconsistent pk/column query results). -/
def discover_catalog (db_name db_schema : String)
    (table_specs : List (String × String))
    (column_specs : List (String × Int × String × String × String))
    (pk_specs : List (String × String)) : Option (List DiscoveredEntry) :=
  let table_columns := groupRuns
    (column_specs.map (fun r => (r.1, ColumnSpec.mk r.2.1 r.2.2.1 r.2.2.2.1 r.2.2.2.2)))
  let table_pks := dictOf (groupRuns pk_specs)
  let table_types := dictOf table_specs
  discover_tables db_name db_schema table_pks table_types table_columns

/-- The message of the empty-catalog exception of `do_discover`
(lines 134-136), the spec's `DiscoveryError`. -/
def discoveryErrorMsg : String :=
  "Discovered no tables. Check the user permissions and schema configuration value and try again."

/-- `do_discover(conn, db_schema)` (lines 131-138): raises when the
discovered catalog has no streams, otherwise prints the catalog document
(modelled as returning it).  A `KeyError` escaping `discover_catalog`
aborts `do_discover` before the zero-stream check, also printing nothing. -/
def do_discover (db_name db_schema : String)
    (table_specs : List (String × String))
    (column_specs : List (String × Int × String × String × String))
    (pk_specs : List (String × String)) : Except String (List DiscoveredEntry) :=
  match discover_catalog db_name db_schema table_specs column_specs
      pk_specs with
  | none => .error "KeyError"
  | some catalog =>
      if catalog.length = 0 then .error discoveryErrorMsg
      else .ok catalog

/-! ## Derived notions used by the claims -/

/-- Scans a message list: `true` iff every `RECORD` message is preceded by
an earlier `ACTIVATE_VERSION` message (vacuously `true` when no `RECORD`
message occurs). -/
def recordsAfterAV : List Msg → Bool
  | [] => true
  | m :: rest =>
      if isRecord m then false
      else if isAV m then true
      else recordsAfterAV rest

/-- The first catalog entry with the given `tap_stream_id`. -/
def findEntry (t : String) : List CatalogEntry → Option CatalogEntry
  | [] => none
  | e :: rest => if e.tap_stream_id = t then some e else findEntry t rest

/-- The bookmark dict `build_state` leaves for one catalog entry, computed
directly from the raw state and the entry (`none`: no bookmark entry at all
is created for the stream). -/
def entry_bookmark (raw : TapState) (e : CatalogEntry) :
    Option (List (String × Val)) :=
  let t := e.tap_stream_id
  let method := mdGet e "replication-method"
  let rawVer := get_bookmark raw t "version"
  if method = Val.s "INCREMENTAL" then
    let rk := mdGet e "replication-key"
    some (("replication_key", rk) ::
      ((if get_bookmark raw t "replication_key" = rk then
          [("replication_key_value", get_bookmark raw t "replication_key_value")]
        else []) ++
       (if rawVer ≠ Val.null then [("version", rawVer)] else [])))
  else if method = Val.s "FULL_TABLE" ∧ rawVer = Val.null then
    some [("version", Val.null)]
  else none

/-! ## Concrete inputs used by counterexamples and witnesses -/

/-- A one-column full-table stream (no replication key in its metadata). -/
def exEntry : CatalogEntry :=
  { tap_stream_id := "db.public.t", table := "public.t", stream := "t",
    database := "db",
    properties := [("id", { inclusion := some "available",
                            type_ := some (.single "integer") })],
    streamMd := [] }

/-- An incremental stream keyed on a datetime column. -/
def exEntryInc : CatalogEntry :=
  { tap_stream_id := "db.public.u", table := "public.u", stream := "u",
    database := "db",
    properties := [("id", { inclusion := some "available",
                            type_ := some (.single "integer") }),
                   ("updated_at", { inclusion := some "available",
                                    type_ := some (.single "string"),
                                    format := some "date-time" })],
    streamMd := [("replication-method", Val.s "INCREMENTAL"),
                 ("replication-key", Val.s "updated_at")] }

/-- `exEntry` with every column deselected (empty resolved schema). -/
def exEntryNoCols : CatalogEntry := { exEntry with properties := [] }

/-- `exEntry` with an explicit `FULL_TABLE` replication method. -/
def exEntryFT : CatalogEntry :=
  { exEntry with streamMd := [("replication-method", Val.s "FULL_TABLE")] }

/-- A state holding a prior non-null version bookmark for `exEntry`. -/
def exStateWithVersion : TapState :=
  ⟨none, some [("db.public.t", [("version", Val.i 5)])]⟩

/-- 1000 identical single-cell rows. -/
def exRows1000 : List (List Val) := List.replicate 1000 [Val.i 1]

/-- Whether a message is the `SCHEMA` message of the given stream. -/
def isSchemaFor (t : String) : Msg → Bool
  | .schemaMsg t' _ _ _ => t' = t
  | _ => false

/-- A sync run of the zero-column stream. -/
def exRunNoCols : StreamRun := ⟨exEntryNoCols, [], 3, "T"⟩

/-- The state right after `sync_table` persists the stream version
(line 311), before any row is processed. -/
def st1Of (e : CatalogEntry) (state0 : TapState) (fv : Int) : TapState :=
  write_bookmark state0 e.tap_stream_id "version"
    (get_stream_version e.tap_stream_id state0 fv)

/-- The result of `sync_table`'s row loop on the given rows. -/
def loopOut (e : CatalogEntry) (state0 : TapState) (fv : Int) (te : String)
    (rows : List (List Val)) : SyncOut :=
  sync_rows e (mdGet e "replication-key")
    (get_stream_version e.tap_stream_id state0 fv) te (st1Of e state0 fv) 0 rows

/-! # Theorems -/

/-! ## Association list and bookmark lemmas -/

theorem assocFind_upsert_self (l : List (String × α)) (k : String) (v : α) :
    assocFind k (assocUpsert l k v) = some v := by
  induction l with
  | nil => simp [assocFind, assocUpsert]
  | cons p rest ih =>
      obtain ⟨k', v'⟩ := p
      by_cases h : k' = k <;> simp [assocFind, assocUpsert, h, ih]

theorem assocFind_upsert_other (l : List (String × α)) (k k' : String) (v : α)
    (h : k' ≠ k) : assocFind k' (assocUpsert l k v) = assocFind k' l := by
  have h' : k ≠ k' := Ne.symm h
  induction l with
  | nil => simp [assocFind, assocUpsert, h']
  | cons p rest ih =>
      obtain ⟨k₀, v₀⟩ := p
      by_cases h0 : k₀ = k
      · subst h0
        simp [assocFind, assocUpsert, h']
      · by_cases h1 : k₀ = k' <;> simp [assocFind, assocUpsert, h0, h1, ih, h, h']

theorem lookupBms_write_self (s : TapState) (t k : String) (v : Val) :
    lookupBms (write_bookmark s t k v) t =
      some (assocUpsert ((lookupBms s t).getD []) k v) := by
  simp [lookupBms, write_bookmark, assocFind_upsert_self]

theorem lookupBms_write_other (s : TapState) (t t' k : String) (v : Val)
    (h : t' ≠ t) :
    lookupBms (write_bookmark s t k v) t' = lookupBms s t' := by
  simp [lookupBms, write_bookmark, assocFind_upsert_other _ _ _ _ h]

theorem bmEntryLookup_write_self (s : TapState) (t k : String) (v : Val) :
    bmEntryLookup (write_bookmark s t k v) t k = some v := by
  simp [bmEntryLookup, lookupBms_write_self, assocFind_upsert_self]

theorem bmEntryLookup_write_other_key (s : TapState) (t k k' : String) (v : Val)
    (h : k' ≠ k) :
    bmEntryLookup (write_bookmark s t k v) t k' = bmEntryLookup s t k' := by
  have h1 : bmEntryLookup (write_bookmark s t k v) t k'
      = assocFind k' ((lookupBms s t).getD []) := by
    simp [bmEntryLookup, lookupBms_write_self, assocFind_upsert_other _ _ _ _ h]
  rw [h1]
  cases hl : lookupBms s t <;> simp [bmEntryLookup, hl, assocFind]

theorem bmEntryLookup_write_other_stream (s : TapState) (t t' k k' : String)
    (v : Val) (h : t' ≠ t) :
    bmEntryLookup (write_bookmark s t k v) t' k' = bmEntryLookup s t' k' := by
  simp [bmEntryLookup, lookupBms_write_other _ _ _ _ _ h]

theorem get_bookmark_eq (s : TapState) (t k : String) :
    get_bookmark s t k = (bmEntryLookup s t k).getD Val.null := by
  cases hl : lookupBms s t <;> simp [get_bookmark, bmEntryLookup, hl, assocFind]

/-! ## Claim C5: the Type Mapper -/

/-- C5: for every native column type and nullability flag,
`schema_for_column` returns a schema whose `type` includes `null` iff the
column is nullable (becoming exactly `['null']` when the base type is
unsupported), and whose `inclusion` is `unsupported` iff the native type is
outside the fixed classification table. -/
theorem schema_for_column_null_and_inclusion (ctype cnullable : String) :
    (includesNull (schema_for_column ctype cnullable).type_ = true ↔
      cnullable.toLower = "yes")
    ∧ ((schema_for_column ctype cnullable).inclusion = some "unsupported" ↔
      supportedType ctype.toLower = false)
    ∧ (supportedType ctype.toLower = false → cnullable.toLower = "yes" →
      (schema_for_column ctype cnullable).type_ = some (.many ["null"])) := by
  unfold schema_for_column supportedType
  by_cases hn : cnullable.toLower = "yes" <;>
  by_cases hb : ctype.toLower = "bool" <;>
  rcases hby : bytesForIntegerType ctype.toLower with _ | bytes <;>
  by_cases hf : ctype.toLower ∈ floatTypes <;>
  by_cases hnum : ctype.toLower = "numeric" <;>
  by_cases hs : ctype.toLower ∈ stringTypes <;>
  by_cases hdt : ctype.toLower ∈ datetimeTypes <;>
  by_cases hd : ctype.toLower ∈ dateTypes <;>
  by_cases hg : ctype.toLower ∈ geometryTypes <;>
  simp_all [includesNull]

/-- Witness for C5 at a concrete input. -/
theorem schema_for_column_null_and_inclusion_witness :
    (includesNull (schema_for_column "int4" "YES").type_ = true ↔
      ("YES" : String).toLower = "yes")
    ∧ ((schema_for_column "int4" "YES").inclusion = some "unsupported" ↔
      supportedType ("int4" : String).toLower = false)
    ∧ (supportedType ("int4" : String).toLower = false →
      ("YES" : String).toLower = "yes" →
      (schema_for_column "int4" "YES").type_ = some (.many ["null"])) :=
  schema_for_column_null_and_inclusion "int4" "YES"

/-! ## Claim C9: discovery failure on an empty catalog -/

theorem groupRuns_eq_nil {l : List (String × α)} :
    groupRuns l = [] ↔ l = [] := by
  cases l with
  | nil => simp [groupRuns]
  | cons p rest =>
      obtain ⟨k, v⟩ := p
      simp only [groupRuns]
      cases h : groupRuns rest with
      | nil => simp
      | cons g gs => obtain ⟨k', vs⟩ := g; by_cases hk : k' = k <;> simp [hk]

/-- C9: the `DiscoveryError` is raised (and nothing printed) exactly when
discovery completes with zero streams, which happens exactly when the
column query returns no rows; whenever discovery completes with at least
one stream, no error is raised and that catalog document is printed.  A
`KeyError` from a primary-key column missing among the fetched columns
aborts discovery before the zero-stream check (also printing nothing), so
no catalog is "discovered" in that case. -/
theorem do_discover_empty_catalog (db_name db_schema : String)
    (table_specs : List (String × String))
    (column_specs : List (String × Int × String × String × String))
    (pk_specs : List (String × String)) :
    (discover_catalog db_name db_schema table_specs column_specs pk_specs
        = some [] ↔ column_specs = [])
    ∧ (do_discover db_name db_schema table_specs column_specs pk_specs
        = .error discoveryErrorMsg
      ↔ discover_catalog db_name db_schema table_specs column_specs pk_specs
        = some [])
    ∧ (∀ c, discover_catalog db_name db_schema table_specs column_specs
        pk_specs = some c → c ≠ [] →
      do_discover db_name db_schema table_specs column_specs pk_specs
        = .ok c) := by
  refine ⟨⟨?_, ?_⟩, ?_, ?_⟩
  · intro h
    by_contra hne
    rw [show discover_catalog db_name db_schema table_specs column_specs
        pk_specs = discover_tables db_name db_schema
          (dictOf (groupRuns pk_specs)) (dictOf table_specs)
          (groupRuns (column_specs.map (fun r =>
            (r.1, ColumnSpec.mk r.2.1 r.2.2.1 r.2.2.2.1 r.2.2.2.2))))
      from rfl] at h
    cases hg : groupRuns (column_specs.map (fun r =>
        (r.1, ColumnSpec.mk r.2.1 r.2.2.1 r.2.2.2.1 r.2.2.2.2))) with
    | nil =>
        have : column_specs.map (fun r =>
            (r.1, ColumnSpec.mk r.2.1 r.2.2.1 r.2.2.2.1 r.2.2.2.2)) = [] :=
          groupRuns_eq_nil.1 hg
        exact hne (List.map_eq_nil_iff.1 this)
    | cons g gs =>
        rw [hg] at h
        obtain ⟨name, colspecs⟩ := g
        rw [discover_tables] at h
        cases hde : discover_entry db_name db_schema
            (dictOf (groupRuns pk_specs)) (dictOf table_specs) name
            colspecs with
        | none => rw [hde] at h; cases h
        | some entry =>
            rw [hde] at h
            cases hdt : discover_tables db_name db_schema
                (dictOf (groupRuns pk_specs)) (dictOf table_specs) gs with
            | none => rw [hdt] at h; cases h
            | some entries => rw [hdt] at h; cases h
  · intro h
    subst h
    rfl
  · cases hd : discover_catalog db_name db_schema table_specs column_specs
        pk_specs with
    | none => simp [do_discover, hd, discoveryErrorMsg]
    | some c =>
        simp only [do_discover, hd]
        by_cases hc : c.length = 0
        · have hnil : c = [] := List.length_eq_zero.1 hc
          subst hnil
          simp
        · have hne : c ≠ [] := fun hcontra => hc (by simp [hcontra])
          simp [hc, hne]
  · intro c hc hne
    simp only [do_discover, hc]
    rw [if_neg (by simp [List.length_eq_zero, hne])]

/-- Witness for C9 at concrete query results. -/
theorem do_discover_empty_catalog_witness :
    (discover_catalog "db" "public" [] [] [] = some []
      ↔ ([] : List (String × Int × String × String × String)) = [])
    ∧ (do_discover "db" "public" [] [] [] = .error discoveryErrorMsg
      ↔ discover_catalog "db" "public" [] [] [] = some [])
    ∧ (∀ c, discover_catalog "db" "public" [] [] [] = some c → c ≠ [] →
      do_discover "db" "public" [] [] [] = .ok c) :=
  do_discover_empty_catalog "db" "public" [] [] []

/-! ## State builder lemmas -/

theorem write_bookmark_cs (s : TapState) (t k : String) (v : Val) :
    (write_bookmark s t k v).currently_syncing = s.currently_syncing := rfl

theorem build_state_step_cs (raw st : TapState) (e : CatalogEntry) :
    (build_state_step raw st e).currently_syncing = st.currently_syncing := by
  simp only [build_state_step]
  split_ifs <;> simp [write_bookmark_cs]

theorem build_fold_cs (raw : TapState) (l : List CatalogEntry) (st : TapState) :
    (l.foldl (build_state_step raw) st).currently_syncing =
      st.currently_syncing := by
  induction l generalizing st with
  | nil => rfl
  | cons e rest ih => simp [List.foldl_cons, ih, build_state_step_cs]

theorem build_state_step_other (raw st : TapState) (e : CatalogEntry)
    (t : String) (h : t ≠ e.tap_stream_id) :
    lookupBms (build_state_step raw st e) t = lookupBms st t := by
  simp only [build_state_step]
  split_ifs <;> simp [lookupBms_write_other _ _ _ _ _ h]

theorem build_state_step_self (raw st : TapState) (e : CatalogEntry)
    (hfresh : lookupBms st e.tap_stream_id = none) :
    lookupBms (build_state_step raw st e) e.tap_stream_id
      = entry_bookmark raw e := by
  simp only [build_state_step, entry_bookmark]
  split_ifs <;>
    simp_all [lookupBms_write_self, hfresh, assocUpsert]

theorem build_fold_untouched (raw : TapState) (l : List CatalogEntry)
    (st : TapState) (t : String) (h : ∀ e ∈ l, e.tap_stream_id ≠ t) :
    lookupBms (l.foldl (build_state_step raw) st) t = lookupBms st t := by
  induction l generalizing st with
  | nil => rfl
  | cons e rest ih =>
      rw [List.foldl_cons, ih _ (fun e' he' => h e' (List.mem_cons_of_mem _ he')),
        build_state_step_other _ _ _ _ (Ne.symm (h e (List.mem_cons_self _ _)))]

theorem findEntry_none (t : String) (l : List CatalogEntry)
    (h : ∀ e ∈ l, e.tap_stream_id ≠ t) : findEntry t l = none := by
  induction l with
  | nil => rfl
  | cons e rest ih =>
      simp only [findEntry, h e (List.mem_cons_self _ _), if_false]
      exact ih (fun e' he' => h e' (List.mem_cons_of_mem _ he'))

theorem findEntry_of_mem (e : CatalogEntry) (l : List CatalogEntry)
    (hnd : (l.map (fun x => x.tap_stream_id)).Nodup) (he : e ∈ l) :
    findEntry e.tap_stream_id l = some e := by
  induction l with
  | nil => cases he
  | cons e0 rest ih =>
      rcases List.mem_cons.1 he with rfl | hmem
      · simp [findEntry]
      · have hne : e0.tap_stream_id ≠ e.tap_stream_id := by
          intro hcontra
          have : e.tap_stream_id ∈ rest.map (fun x => x.tap_stream_id) :=
            List.mem_map_of_mem _ hmem
          rw [← hcontra] at this
          exact (List.nodup_cons.1 hnd).1 this
        simp only [findEntry, hne, if_false]
        exact ih (List.nodup_cons.1 hnd).2 hmem

theorem build_fold_char (raw : TapState) (l : List CatalogEntry)
    (st : TapState) (t : String)
    (hnd : (l.map (fun x => x.tap_stream_id)).Nodup)
    (hfresh : ∀ e ∈ l, lookupBms st e.tap_stream_id = none) :
    lookupBms (l.foldl (build_state_step raw) st) t =
      (match findEntry t l with
       | some e => entry_bookmark raw e
       | none => lookupBms st t) := by
  induction l generalizing st with
  | nil => rfl
  | cons e rest ih =>
      have hnotin : e.tap_stream_id ∉ rest.map (fun x => x.tap_stream_id) :=
        (List.nodup_cons.1 hnd).1
      have hfresh' : ∀ e' ∈ rest,
          lookupBms (build_state_step raw st e) e'.tap_stream_id = none := by
        intro e' he'
        have hne : e'.tap_stream_id ≠ e.tap_stream_id := by
          intro hcontra
          exact hnotin (hcontra ▸ List.mem_map_of_mem _ he')
        rw [build_state_step_other _ _ _ _ hne]
        exact hfresh e' (List.mem_cons_of_mem _ he')
      rw [List.foldl_cons, ih _ (List.nodup_cons.1 hnd).2 hfresh']
      by_cases ht : e.tap_stream_id = t
      · subst ht
        have : findEntry e.tap_stream_id rest = none := by
          apply findEntry_none
          intro e' he' hcontra
          exact hnotin (hcontra ▸ List.mem_map_of_mem _ he')
        simp only [findEntry, if_pos rfl, this]
        exact build_state_step_self raw st e
          (hfresh e (List.mem_cons_self _ _))
      · simp only [findEntry, if_neg ht]
        cases hfe : findEntry t rest with
        | some e' => rfl
        | none => exact build_state_step_other raw st e t (fun h => ht h.symm)

theorem build_state_init_bms (raw : TapState) (t : String) :
    lookupBms
      (if (get_currently_syncing raw).truthy then
        set_currently_syncing {} (get_currently_syncing raw)
       else {}) t = none := by
  split_ifs <;> simp [lookupBms, set_currently_syncing, assocFind]

theorem build_state_lookup (raw : TapState) (catalog : List CatalogEntry)
    (t : String) (hnd : (catalog.map (fun x => x.tap_stream_id)).Nodup) :
    lookupBms (build_state raw catalog) t =
      (match findEntry t catalog with
       | some e => entry_bookmark raw e
       | none => none) := by
  unfold build_state
  rw [build_fold_char raw catalog _ t hnd
    (fun e _ => build_state_init_bms raw e.tap_stream_id)]
  cases hfe : findEntry t catalog with
  | some e => rfl
  | none => exact build_state_init_bms raw t

/-! ## Claim C6: replication_key_value carried iff the key name matches -/

/-- C6: for each stream whose resolved replication method is `INCREMENTAL`,
`build_state` copies the prior `replication_key_value` bookmark (binding the
key in the output) iff the replication key name recorded in the raw state
equals the one chosen in the catalog; when they differ the output has no
`replication_key_value` binding for that stream. -/
theorem build_state_rkv_carry (raw : TapState) (catalog : List CatalogEntry)
    (e : CatalogEntry)
    (hnd : (catalog.map (fun x => x.tap_stream_id)).Nodup)
    (he : e ∈ catalog)
    (hm : mdGet e "replication-method" = Val.s "INCREMENTAL") :
    bmEntryLookup (build_state raw catalog) e.tap_stream_id
        "replication_key_value" =
      (if get_bookmark raw e.tap_stream_id "replication_key"
          = mdGet e "replication-key" then
        some (get_bookmark raw e.tap_stream_id "replication_key_value")
       else none) := by
  unfold bmEntryLookup
  rw [build_state_lookup raw catalog _ hnd, findEntry_of_mem e catalog hnd he]
  simp only [entry_bookmark, hm, if_pos rfl]
  by_cases hrr : get_bookmark raw e.tap_stream_id "replication_key"
      = mdGet e "replication-key" <;>
    by_cases hrv : get_bookmark raw e.tap_stream_id "version" = Val.null <;>
    simp [hrr, hrv, assocFind]

/-- Witness for C6: the raw state recorded a different replication key, so
no `replication_key_value` is carried. -/
theorem build_state_rkv_carry_witness :
    bmEntryLookup
        (build_state ⟨none, some [("db.public.u",
          [("replication_key", Val.s "id"),
           ("replication_key_value", Val.s "3")])]⟩ [exEntryInc])
        exEntryInc.tap_stream_id "replication_key_value" =
      (if get_bookmark ⟨none, some [("db.public.u",
          [("replication_key", Val.s "id"),
           ("replication_key_value", Val.s "3")])]⟩
          exEntryInc.tap_stream_id "replication_key"
          = mdGet exEntryInc "replication-key" then
        some (get_bookmark ⟨none, some [("db.public.u",
          [("replication_key", Val.s "id"),
           ("replication_key_value", Val.s "3")])]⟩
          exEntryInc.tap_stream_id "replication_key_value")
       else none) :=
  build_state_rkv_carry _ [exEntryInc] exEntryInc (by decide) (by decide)
    (by decide)

/-! ## Claim C10: FULL_TABLE version handling in build_state -/

/-- C10: for a stream whose resolved replication method is `FULL_TABLE`, a
non-null raw version bookmark makes `build_state` drop the stream's
bookmark entry entirely, while an absent or null raw version makes it write
a bookmark entry holding exactly a null version. -/
theorem build_state_full_table_version (raw : TapState)
    (catalog : List CatalogEntry) (e : CatalogEntry)
    (hnd : (catalog.map (fun x => x.tap_stream_id)).Nodup)
    (he : e ∈ catalog)
    (hm : mdGet e "replication-method" = Val.s "FULL_TABLE") :
    (get_bookmark raw e.tap_stream_id "version" ≠ Val.null →
      lookupBms (build_state raw catalog) e.tap_stream_id = none)
    ∧ (get_bookmark raw e.tap_stream_id "version" = Val.null →
      lookupBms (build_state raw catalog) e.tap_stream_id
        = some [("version", Val.null)]) := by
  rw [build_state_lookup raw catalog _ hnd, findEntry_of_mem e catalog hnd he]
  constructor <;> intro hrv <;> simp [entry_bookmark, hm, hrv]

/-- Witness for C10: a prior non-null version for a FULL_TABLE stream is
dropped without leaving any bookmark entry. -/
theorem build_state_full_table_version_witness :
    (get_bookmark ⟨none, some [("db.public.t", [("version", Val.i 9)])]⟩
        exEntryFT.tap_stream_id "version" ≠ Val.null →
      lookupBms (build_state
        ⟨none, some [("db.public.t", [("version", Val.i 9)])]⟩ [exEntryFT])
        exEntryFT.tap_stream_id = none)
    ∧ (get_bookmark ⟨none, some [("db.public.t", [("version", Val.i 9)])]⟩
        exEntryFT.tap_stream_id "version" = Val.null →
      lookupBms (build_state
        ⟨none, some [("db.public.t", [("version", Val.i 9)])]⟩ [exEntryFT])
        exEntryFT.tap_stream_id = some [("version", Val.null)]) :=
  build_state_full_table_version _ [exEntryFT] exEntryFT (by decide)
    (by decide) (by decide)

/-! ## Claim C7: build_state idempotence -/

/-- Counterexample to C7 as stated: one application of `build_state` leaves
`replication_key_value` unbound for a fresh incremental stream, while a
second application binds it to `None` — the two state documents are not
equal (they differ in the key set of the stream's bookmark dict, which is
exactly Python dict inequality). -/
theorem build_state_not_idempotent :
    build_state (build_state ({} : TapState) [exEntryInc]) [exEntryInc] ≠
      build_state ({} : TapState) [exEntryInc]
    ∧ bmEntryLookup (build_state ({} : TapState) [exEntryInc])
        "db.public.u" "replication_key_value" = none
    ∧ bmEntryLookup
        (build_state (build_state ({} : TapState) [exEntryInc]) [exEntryInc])
        "db.public.u" "replication_key_value" = some Val.null := by
  refine ⟨?_, by decide, by decide⟩
  decide

theorem build_state_step_congr (x y st : TapState) (e : CatalogEntry)
    (hv : get_bookmark x e.tap_stream_id "version"
      = get_bookmark y e.tap_stream_id "version")
    (hk : get_bookmark x e.tap_stream_id "replication_key"
      = get_bookmark y e.tap_stream_id "replication_key")
    (hkv : get_bookmark x e.tap_stream_id "replication_key_value"
      = get_bookmark y e.tap_stream_id "replication_key_value") :
    build_state_step x st e = build_state_step y st e := by
  simp only [build_state_step, hv, hk, hkv]

theorem build_fold_congr (x y : TapState) (l : List CatalogEntry)
    (h : ∀ e ∈ l, ∀ st, build_state_step x st e = build_state_step y st e) :
    ∀ st, l.foldl (build_state_step x) st = l.foldl (build_state_step y) st := by
  induction l with
  | nil => intro st; rfl
  | cons e rest ih =>
      intro st
      rw [List.foldl_cons, List.foldl_cons,
        h e (List.mem_cons_self _ _) st]
      exact ih (fun e' he' => h e' (List.mem_cons_of_mem _ he')) _

theorem build_state_congr (x y : TapState) (catalog : List CatalogEntry)
    (hcs : get_currently_syncing x = get_currently_syncing y)
    (h : ∀ e ∈ catalog,
      get_bookmark x e.tap_stream_id "version"
        = get_bookmark y e.tap_stream_id "version"
      ∧ get_bookmark x e.tap_stream_id "replication_key"
        = get_bookmark y e.tap_stream_id "replication_key"
      ∧ get_bookmark x e.tap_stream_id "replication_key_value"
        = get_bookmark y e.tap_stream_id "replication_key_value") :
    build_state x catalog = build_state y catalog := by
  unfold build_state
  rw [hcs]
  exact build_fold_congr x y catalog
    (fun e he st => build_state_step_congr x y st e (h e he).1 (h e he).2.1
      (h e he).2.2) _

theorem build_state_cs_field (y : TapState) (catalog : List CatalogEntry) :
    (build_state y catalog).currently_syncing =
      (if (get_currently_syncing y).truthy then
        some (get_currently_syncing y) else none) := by
  unfold build_state
  rw [build_fold_cs]
  split_ifs <;> rfl

theorem get_cs_build (y : TapState) (catalog : List CatalogEntry) :
    get_currently_syncing (build_state y catalog) =
      (if (get_currently_syncing y).truthy then
        get_currently_syncing y else Val.null) := by
  rw [get_currently_syncing, build_state_cs_field]
  split_ifs <;> rfl

/-- Reads through `get_bookmark` agree between the first and the second
application of `build_state` for every stream of a duplicate-free catalog. -/
theorem build_reads_agree (raw : TapState) (catalog : List CatalogEntry)
    (e : CatalogEntry)
    (hnd : (catalog.map (fun x => x.tap_stream_id)).Nodup)
    (he : e ∈ catalog) (k : String) :
    get_bookmark (build_state (build_state raw catalog) catalog)
        e.tap_stream_id k
      = get_bookmark (build_state raw catalog) e.tap_stream_id k := by
  have h1 : lookupBms (build_state raw catalog) e.tap_stream_id
      = entry_bookmark raw e := by
    rw [build_state_lookup raw catalog _ hnd, findEntry_of_mem e catalog hnd he]
  have h2 : lookupBms (build_state (build_state raw catalog) catalog)
      e.tap_stream_id = entry_bookmark (build_state raw catalog) e := by
    rw [build_state_lookup _ catalog _ hnd, findEntry_of_mem e catalog hnd he]
  rw [get_bookmark_eq, get_bookmark_eq, bmEntryLookup, bmEntryLookup, h1, h2]
  by_cases hInc : mdGet e "replication-method" = Val.s "INCREMENTAL"
  · have hrk : get_bookmark (build_state raw catalog) e.tap_stream_id
        "replication_key" = mdGet e "replication-key" := by
      rw [get_bookmark_eq, bmEntryLookup, h1]
      simp [entry_bookmark, hInc, assocFind]
    have hrv : get_bookmark (build_state raw catalog) e.tap_stream_id
        "version" = get_bookmark raw e.tap_stream_id "version" := by
      rw [get_bookmark_eq, bmEntryLookup, h1]
      by_cases hv : get_bookmark raw e.tap_stream_id "version" = Val.null <;>
        by_cases hrr : get_bookmark raw e.tap_stream_id "replication_key"
          = mdGet e "replication-key" <;>
        simp [entry_bookmark, hInc, hv, hrr, assocFind]
    have hrkv : get_bookmark (build_state raw catalog) e.tap_stream_id
        "replication_key_value" =
        (if get_bookmark raw e.tap_stream_id "replication_key"
            = mdGet e "replication-key" then
          get_bookmark raw e.tap_stream_id "replication_key_value"
         else Val.null) := by
      rw [get_bookmark_eq, bmEntryLookup, h1]
      by_cases hv : get_bookmark raw e.tap_stream_id "version" = Val.null <;>
        by_cases hrr : get_bookmark raw e.tap_stream_id "replication_key"
          = mdGet e "replication-key" <;>
        simp [entry_bookmark, hInc, hv, hrr, assocFind]
    simp only [entry_bookmark, hInc, if_pos rfl, hrk, hrv, hrkv]
    by_cases hv : get_bookmark raw e.tap_stream_id "version" = Val.null <;>
      by_cases hrr : get_bookmark raw e.tap_stream_id "replication_key"
        = mdGet e "replication-key" <;>
      by_cases hk1 : ("replication_key" : String) = k <;>
      by_cases hk2 : ("replication_key_value" : String) = k <;>
      by_cases hk3 : ("version" : String) = k <;>
      first
      | exact absurd (hk1.trans hk2.symm) (by decide)
      | exact absurd (hk1.trans hk3.symm) (by decide)
      | exact absurd (hk2.trans hk3.symm) (by decide)
      | (subst hk1; simp [assocFind, hv, hrr])
      | (subst hk2; simp [assocFind, hv, hrr])
      | (subst hk3; simp [assocFind, hv, hrr])
      | simp [assocFind, hv, hrr, hk1, hk2, hk3]
  · by_cases hFT : mdGet e "replication-method" = Val.s "FULL_TABLE"
    · have hrv1 : get_bookmark (build_state raw catalog) e.tap_stream_id
          "version" = Val.null := by
        rw [get_bookmark_eq, bmEntryLookup, h1]
        by_cases hv : get_bookmark raw e.tap_stream_id "version" = Val.null <;>
          simp [entry_bookmark, hInc, hFT, hv, assocFind]
      simp only [entry_bookmark, hInc, hFT, if_neg hInc, hrv1]
      by_cases hv : get_bookmark raw e.tap_stream_id "version" = Val.null <;>
        by_cases hk3 : ("version" : String) = k <;>
        first
        | (subst hk3; simp [assocFind, hv])
        | simp [assocFind, hv, hk3]
    · simp [entry_bookmark, hInc, hFT]

/-- C7 amended: `build_state` is idempotent from the second application on —
`build(build(build(raw, cat), cat), cat) = build(build(raw, cat), cat)` for
any catalog without duplicate stream ids. -/
theorem build_state_idempotent_from_second (raw : TapState)
    (catalog : List CatalogEntry)
    (hnd : (catalog.map (fun x => x.tap_stream_id)).Nodup) :
    build_state (build_state (build_state raw catalog) catalog) catalog
      = build_state (build_state raw catalog) catalog := by
  apply build_state_congr
  · rw [get_cs_build (build_state raw catalog), get_cs_build raw]
    by_cases hcs : (get_currently_syncing raw).truthy
    · simp [hcs]
    · have hnull : Val.truthy Val.null = false := rfl
      simp [hcs, hnull]
  · intro e he
    exact ⟨build_reads_agree raw catalog e hnd he _,
      build_reads_agree raw catalog e hnd he _,
      build_reads_agree raw catalog e hnd he _⟩

/-- Witness for the amended C7 at a concrete raw state and catalog. -/
theorem build_state_idempotent_from_second_witness :
    build_state (build_state (build_state exStateWithVersion [exEntryInc])
        [exEntryInc]) [exEntryInc]
      = build_state (build_state exStateWithVersion [exEntryInc])
        [exEntryInc] :=
  build_state_idempotent_from_second exStateWithVersion [exEntryInc] (by decide)

/-! ## Sync engine lemmas -/

theorem countRecords_append (a b : List Msg) :
    countRecords (a ++ b) = countRecords a + countRecords b := by
  simp [countRecords, List.filter_append]

theorem countAV_append (a b : List Msg) :
    countAV (a ++ b) = countAV a + countAV b := by
  simp [countAV, List.filter_append]

theorem sync_rows_nil (e : CatalogEntry) (rk sv : Val) (te : String)
    (st : TapState) (saved : Nat) :
    sync_rows e rk sv te st saved [] = ⟨[], st, true⟩ := rfl

theorem sync_rows_cons_null (e : CatalogEntry) (sv : Val) (te : String)
    (st : TapState) (saved : Nat) (row : List Val) (rest : List (List Val)) :
    sync_rows e Val.null sv te st saved (row :: rest)
      = ⟨Msg.recordMsg e.tap_stream_id (mkRecord (cols e) row) sv te ::
          ((if (saved + 1) % 1000 = 0 then [Msg.stateMsg st] else []) ++
            (sync_rows e Val.null sv te st (saved + 1) rest).msgs),
         (sync_rows e Val.null sv te st (saved + 1) rest).state,
         (sync_rows e Val.null sv te st (saved + 1) rest).ok⟩ := by
  simp [sync_rows]

theorem sync_rows_cons_key_none (e : CatalogEntry) (rk sv : Val) (te : String)
    (st : TapState) (saved : Nat) (row : List Val) (rest : List (List Val))
    (hrk : ¬rk = Val.null)
    (hget : recordGet (mkRecord (cols e) row) rk = none) :
    sync_rows e rk sv te st saved (row :: rest)
      = ⟨[Msg.recordMsg e.tap_stream_id (mkRecord (cols e) row) sv te],
         st, false⟩ := by
  simp [sync_rows, hrk, hget]

theorem sync_rows_cons_key_some (e : CatalogEntry) (rk sv : Val) (te : String)
    (st : TapState) (saved : Nat) (row : List Val) (rest : List (List Val))
    (v : Val) (hrk : ¬rk = Val.null)
    (hget : recordGet (mkRecord (cols e) row) rk = some v) :
    sync_rows e rk sv te st saved (row :: rest)
      = ⟨Msg.recordMsg e.tap_stream_id (mkRecord (cols e) row) sv te ::
          ((if (saved + 1) % 1000 = 0 then
              [Msg.stateMsg (write_bookmark st e.tap_stream_id
                "replication_key_value" v)]
            else []) ++
            (sync_rows e rk sv te (write_bookmark st e.tap_stream_id
              "replication_key_value" v) (saved + 1) rest).msgs),
         (sync_rows e rk sv te (write_bookmark st e.tap_stream_id
           "replication_key_value" v) (saved + 1) rest).state,
         (sync_rows e rk sv te (write_bookmark st e.tap_stream_id
           "replication_key_value" v) (saved + 1) rest).ok⟩ := by
  simp [sync_rows, hrk, hget]

theorem sync_rows_no_av (e : CatalogEntry) (rk sv : Val) (te : String) :
    ∀ (l : List (List Val)) (st : TapState) (saved : Nat),
      ∀ m ∈ (sync_rows e rk sv te st saved l).msgs, isAV m = false := by
  intro l
  induction l with
  | nil => intro st saved m hm; simp [sync_rows_nil] at hm
  | cons row rest ih =>
      intro st saved m hm
      by_cases hrk : rk = Val.null
      · subst hrk
        rw [sync_rows_cons_null] at hm
        rcases List.mem_cons.1 hm with rfl | hm'
        · rfl
        · rcases List.mem_append.1 hm' with hcp | hout
          · by_cases h1000 : (saved + 1) % 1000 = 0
            · rw [if_pos h1000] at hcp
              rcases List.mem_singleton.1 hcp with rfl
              rfl
            · rw [if_neg h1000] at hcp
              cases hcp
          · exact ih _ _ _ hout
      · cases hget : recordGet (mkRecord (cols e) row) rk with
        | none =>
            rw [sync_rows_cons_key_none _ _ _ _ _ _ _ _ hrk hget] at hm
            rcases List.mem_singleton.1 hm with rfl
            rfl
        | some v =>
            rw [sync_rows_cons_key_some _ _ _ _ _ _ _ _ _ hrk hget] at hm
            rcases List.mem_cons.1 hm with rfl | hm'
            · rfl
            · rcases List.mem_append.1 hm' with hcp | hout
              · by_cases h1000 : (saved + 1) % 1000 = 0
                · rw [if_pos h1000] at hcp
                  rcases List.mem_singleton.1 hcp with rfl
                  rfl
                · rw [if_neg h1000] at hcp
                  cases hcp
              · exact ih _ _ _ hout

theorem sync_rows_ok_records (e : CatalogEntry) (rk sv : Val) (te : String) :
    ∀ (l : List (List Val)) (st : TapState) (saved : Nat),
      (sync_rows e rk sv te st saved l).ok = true →
      countRecords (sync_rows e rk sv te st saved l).msgs = l.length := by
  intro l
  induction l with
  | nil => intro st saved _; simp [sync_rows_nil, countRecords]
  | cons row rest ih =>
      intro st saved hok
      by_cases hrk : rk = Val.null
      · subst hrk
        rw [sync_rows_cons_null] at hok ⊢
        have hrec := ih _ _ hok
        simp only [countRecords] at hrec ⊢
        by_cases h1000 : (saved + 1) % 1000 = 0 <;>
          simp [h1000, isRecord, List.filter_append, List.filter_cons, hrec]
      · cases hget : recordGet (mkRecord (cols e) row) rk with
        | none =>
            rw [sync_rows_cons_key_none _ _ _ _ _ _ _ _ hrk hget] at hok
            simp at hok
        | some v =>
            rw [sync_rows_cons_key_some _ _ _ _ _ _ _ _ _ hrk hget] at hok ⊢
            have hrec := ih _ _ hok
            simp only [countRecords] at hrec ⊢
            by_cases h1000 : (saved + 1) % 1000 = 0 <;>
              simp [h1000, isRecord, List.filter_append, List.filter_cons, hrec]

theorem sync_rows_ok_null (e : CatalogEntry) (sv : Val) (te : String) :
    ∀ (l : List (List Val)) (st : TapState) (saved : Nat),
      (sync_rows e Val.null sv te st saved l).ok = true := by
  intro l
  induction l with
  | nil => intro st saved; rfl
  | cons row rest ih =>
      intro st saved
      rw [sync_rows_cons_null]
      exact ih _ _

theorem sync_rows_state_keys (e : CatalogEntry) (rk sv : Val) (te : String) :
    ∀ (l : List (List Val)) (st : TapState) (saved : Nat) (t k : String),
      k ≠ "replication_key_value" →
      bmEntryLookup (sync_rows e rk sv te st saved l).state t k
        = bmEntryLookup st t k := by
  intro l
  induction l with
  | nil => intro st saved t k _; rfl
  | cons row rest ih =>
      intro st saved t k hk
      by_cases hrk : rk = Val.null
      · subst hrk
        rw [sync_rows_cons_null]
        exact ih _ _ _ _ hk
      · cases hget : recordGet (mkRecord (cols e) row) rk with
        | none =>
            rw [sync_rows_cons_key_none _ _ _ _ _ _ _ _ hrk hget]
        | some v =>
            rw [sync_rows_cons_key_some _ _ _ _ _ _ _ _ _ hrk hget]
            rw [ih _ _ _ _ hk]
            by_cases ht : t = e.tap_stream_id
            · subst ht
              exact bmEntryLookup_write_other_key _ _ _ _ _ hk
            · exact bmEntryLookup_write_other_stream _ _ _ _ _ _ ht

theorem sync_rows_append (e : CatalogEntry) (rk sv : Val) (te : String) :
    ∀ (l₁ l₂ : List (List Val)) (st : TapState) (saved : Nat),
      sync_rows e rk sv te st saved (l₁ ++ l₂)
        = (if (sync_rows e rk sv te st saved l₁).ok = true then
            ⟨(sync_rows e rk sv te st saved l₁).msgs
              ++ (sync_rows e rk sv te (sync_rows e rk sv te st saved l₁).state
                  (saved + l₁.length) l₂).msgs,
             (sync_rows e rk sv te (sync_rows e rk sv te st saved l₁).state
               (saved + l₁.length) l₂).state,
             (sync_rows e rk sv te (sync_rows e rk sv te st saved l₁).state
               (saved + l₁.length) l₂).ok⟩
          else sync_rows e rk sv te st saved l₁) := by
  intro l₁
  induction l₁ with
  | nil =>
      intro l₂ st saved
      simp [sync_rows_nil]
  | cons row rest ih =>
      intro l₂ st saved
      have harith : saved + 1 + rest.length = saved + (rest.length + 1) := by
        omega
      by_cases hrk : rk = Val.null
      · subst hrk
        rw [List.cons_append, sync_rows_cons_null, sync_rows_cons_null, ih]
        by_cases hok :
            (sync_rows e Val.null sv te st (saved + 1) rest).ok = true <;>
          simp [hok, harith, List.append_assoc]
      · cases hget : recordGet (mkRecord (cols e) row) rk with
        | none =>
            rw [List.cons_append,
              sync_rows_cons_key_none _ _ _ _ _ _ _ _ hrk hget,
              sync_rows_cons_key_none _ _ _ _ _ _ _ _ hrk hget]
            simp
        | some v =>
            rw [List.cons_append,
              sync_rows_cons_key_some _ _ _ _ _ _ _ _ _ hrk hget,
              sync_rows_cons_key_some _ _ _ _ _ _ _ _ _ hrk hget, ih]
            by_cases hok : (sync_rows e rk sv te
                (write_bookmark st e.tap_stream_id "replication_key_value" v)
                (saved + 1) rest).ok = true <;>
              simp [hok, harith, List.append_assoc]

theorem sync_rows_last_cp (e : CatalogEntry) (rk sv : Val) (te : String) :
    ∀ (l : List (List Val)) (st : TapState) (saved : Nat),
      l ≠ [] → (saved + l.length) % 1000 = 0 →
      (sync_rows e rk sv te st saved l).ok = true →
      ∃ body r, isRecord r = true ∧
        (sync_rows e rk sv te st saved l).msgs
          = body ++ [r, Msg.stateMsg (sync_rows e rk sv te st saved l).state] := by
  intro l
  induction l with
  | nil => intro st saved hne; exact absurd rfl hne
  | cons row rest ih =>
      intro st saved _ hmod hok
      have harith : saved + (row :: rest).length = saved + 1 + rest.length := by
        simp; omega
      rw [harith] at hmod
      by_cases hrk : rk = Val.null
      · subst hrk
        rw [sync_rows_cons_null] at hok ⊢
        cases rest with
        | nil =>
            have h1000 : (saved + 1) % 1000 = 0 := by simpa using hmod
            refine ⟨[], Msg.recordMsg e.tap_stream_id
              (mkRecord (cols e) row) sv te, rfl, ?_⟩
            simp [sync_rows_nil, h1000]
        | cons row2 rest2 =>
            obtain ⟨body, r, hr, hmsgs⟩ :=
              ih st (saved + 1) (by simp) hmod hok
            refine ⟨Msg.recordMsg e.tap_stream_id (mkRecord (cols e) row) sv te
              :: ((if (saved + 1) % 1000 = 0 then [Msg.stateMsg st] else [])
                ++ body), r, hr, ?_⟩
            simp [hmsgs, List.append_assoc]
      · cases hget : recordGet (mkRecord (cols e) row) rk with
        | none =>
            rw [sync_rows_cons_key_none _ _ _ _ _ _ _ _ hrk hget] at hok
            simp at hok
        | some v =>
            rw [sync_rows_cons_key_some _ _ _ _ _ _ _ _ _ hrk hget] at hok ⊢
            cases rest with
            | nil =>
                have h1000 : (saved + 1) % 1000 = 0 := by simpa using hmod
                refine ⟨[], Msg.recordMsg e.tap_stream_id
                  (mkRecord (cols e) row) sv te, rfl, ?_⟩
                simp [sync_rows_nil, h1000]
            | cons row2 rest2 =>
                obtain ⟨body, r, hr, hmsgs⟩ :=
                  ih (write_bookmark st e.tap_stream_id
                    "replication_key_value" v) (saved + 1) (by simp) hmod hok
                refine ⟨Msg.recordMsg e.tap_stream_id
                  (mkRecord (cols e) row) sv te
                  :: ((if (saved + 1) % 1000 = 0 then
                      [Msg.stateMsg (write_bookmark st e.tap_stream_id
                        "replication_key_value" v)] else []) ++ body),
                  r, hr, ?_⟩
                simp [hmsgs, List.append_assoc]

theorem sync_table_eq_body (e : CatalogEntry) (state0 : TapState)
    (rows : List (List Val)) (fsd : Option String) (fv : Int) (te : String)
    (hcols : ¬cols e = []) (hsplit : e.table.data.count '.' = 1) :
    sync_table e state0 rows fsd fv te
      = sync_table_body e state0 rows fsd fv te := by
  simp [sync_table, hcols, hsplit]

theorem sync_table_body_rkv_fail (e : CatalogEntry) (state0 : TapState)
    (rows : List (List Val)) (fsd : Option String) (fv : Int) (te : String)
    (hq : rkv_check e (st1Of e state0 fv) e.tap_stream_id
      (mdGet e "replication-key") fsd = false) :
    sync_table_body e state0 rows fsd fv te
      = ⟨(if (mdGet e "replication-key").truthy
            ∨ lookupBms state0 e.tap_stream_id = none then
          [Msg.activateVersionMsg e.tap_stream_id
            (get_stream_version e.tap_stream_id state0 fv)]
         else []), st1Of e state0 fv, false⟩ := by
  rw [sync_table_body]
  rw [show rkv_check e (write_bookmark state0 e.tap_stream_id "version"
    (get_stream_version e.tap_stream_id state0 fv)) e.tap_stream_id
    (mdGet e "replication-key") fsd = false from hq]
  simp [st1Of]

theorem sync_table_body_loop_crash (e : CatalogEntry) (state0 : TapState)
    (rows : List (List Val)) (fsd : Option String) (fv : Int) (te : String)
    (hq : rkv_check e (st1Of e state0 fv) e.tap_stream_id
      (mdGet e "replication-key") fsd = true)
    (hlok : (loopOut e state0 fv te rows).ok = false) :
    sync_table_body e state0 rows fsd fv te
      = ⟨(if (mdGet e "replication-key").truthy
            ∨ lookupBms state0 e.tap_stream_id = none then
          [Msg.activateVersionMsg e.tap_stream_id
            (get_stream_version e.tap_stream_id state0 fv)]
         else []) ++ (loopOut e state0 fv te rows).msgs,
         (loopOut e state0 fv te rows).state, false⟩ := by
  rw [sync_table_body]
  rw [show rkv_check e (write_bookmark state0 e.tap_stream_id "version"
    (get_stream_version e.tap_stream_id state0 fv)) e.tap_stream_id
    (mdGet e "replication-key") fsd = true from hq]
  simp only [st1Of, loopOut] at hlok ⊢
  simp [hlok]

theorem sync_table_body_ok_truthy (e : CatalogEntry) (state0 : TapState)
    (rows : List (List Val)) (fsd : Option String) (fv : Int) (te : String)
    (hq : rkv_check e (st1Of e state0 fv) e.tap_stream_id
      (mdGet e "replication-key") fsd = true)
    (hlok : (loopOut e state0 fv te rows).ok = true)
    (hrkt : (mdGet e "replication-key").truthy = true) :
    sync_table_body e state0 rows fsd fv te
      = ⟨Msg.activateVersionMsg e.tap_stream_id
          (get_stream_version e.tap_stream_id state0 fv)
          :: ((loopOut e state0 fv te rows).msgs
            ++ [Msg.stateMsg (loopOut e state0 fv te rows).state]),
         (loopOut e state0 fv te rows).state, true⟩ := by
  rw [sync_table_body]
  rw [show rkv_check e (write_bookmark state0 e.tap_stream_id "version"
    (get_stream_version e.tap_stream_id state0 fv)) e.tap_stream_id
    (mdGet e "replication-key") fsd = true from hq]
  simp only [st1Of, loopOut] at hlok ⊢
  simp [hlok, hrkt]

theorem sync_table_body_ok_full (e : CatalogEntry) (state0 : TapState)
    (rows : List (List Val)) (fsd : Option String) (fv : Int) (te : String)
    (hq : rkv_check e (st1Of e state0 fv) e.tap_stream_id
      (mdGet e "replication-key") fsd = true)
    (hlok : (loopOut e state0 fv te rows).ok = true)
    (hrkt : (mdGet e "replication-key").truthy = false) :
    sync_table_body e state0 rows fsd fv te
      = ⟨(if lookupBms state0 e.tap_stream_id = none then
          [Msg.activateVersionMsg e.tap_stream_id
            (get_stream_version e.tap_stream_id state0 fv)]
         else []) ++ (loopOut e state0 fv te rows).msgs
          ++ [Msg.activateVersionMsg e.tap_stream_id
                (get_stream_version e.tap_stream_id state0 fv),
              Msg.stateMsg (write_bookmark (loopOut e state0 fv te rows).state
                e.tap_stream_id "version" Val.null)],
         write_bookmark (loopOut e state0 fv te rows).state
           e.tap_stream_id "version" Val.null, true⟩ := by
  rw [sync_table_body]
  rw [show rkv_check e (write_bookmark state0 e.tap_stream_id "version"
    (get_stream_version e.tap_stream_id state0 fv)) e.tap_stream_id
    (mdGet e "replication-key") fsd = true from hq]
  simp only [st1Of, loopOut] at hlok ⊢
  simp [hlok, hrkt]

theorem recordsAfterAV_av (t : String) (v : Val) (l : List Msg) :
    recordsAfterAV (Msg.activateVersionMsg t v :: l) = true := rfl

theorem recordsAfterAV_record (t : String) (r : List (String × Val)) (v : Val)
    (te : String) (l : List Msg) :
    recordsAfterAV (Msg.recordMsg t r v te :: l) = false := rfl

theorem sync_rows_cons_msgs (e : CatalogEntry) (rk sv : Val) (te : String)
    (st : TapState) (saved : Nat) (row : List Val) (rest : List (List Val)) :
    ∃ tail, (sync_rows e rk sv te st saved (row :: rest)).msgs
      = Msg.recordMsg e.tap_stream_id (mkRecord (cols e) row) sv te :: tail := by
  by_cases hrk : rk = Val.null
  · subst hrk
    rw [sync_rows_cons_null]
    exact ⟨_, rfl⟩
  · cases hget : recordGet (mkRecord (cols e) row) rk with
    | none =>
        rw [sync_rows_cons_key_none _ _ _ _ _ _ _ _ hrk hget]
        exact ⟨_, rfl⟩
    | some v =>
        rw [sync_rows_cons_key_some _ _ _ _ _ _ _ _ _ hrk hget]
        exact ⟨_, rfl⟩

/-! ## Claim C1: leading ACTIVATE_VERSION condition -/

/-- Counterexample to C1 as stated: a full-table stream with an existing
bookmark and an empty result set emits its trailing `ACTIVATE_VERSION`
while emitting no `RECORD` at all, so "an ACTIVATE_VERSION is emitted
before any RECORD" holds vacuously although neither a replication key is
configured nor the bookmark is empty. -/
theorem sync_table_activate_before_records_cex :
    ¬(recordsAfterAV (sync_table exEntry exStateWithVersion [] none 7 "T").msgs
        = true
      ↔ ((mdGet exEntry "replication-key").truthy = true
        ∨ lookupBms exStateWithVersion exEntry.tap_stream_id = none)) := by
  decide

/-- C1 amended: for every stream sync that emits at least one `RECORD`
message, an `ACTIVATE_VERSION` precedes every `RECORD` iff the stream has a
truthy replication key or the state had no bookmark entry for the stream at
stream start (when no `RECORD` is emitted the equivalence can fail, since a
full-table stream's trailing `ACTIVATE_VERSION` trivially precedes every
`RECORD`). -/
theorem sync_table_activate_before_records (e : CatalogEntry)
    (state0 : TapState) (rows : List (List Val)) (fsd : Option String)
    (fv : Int) (te : String)
    (hrec : countRecords (sync_table e state0 rows fsd fv te).msgs ≠ 0) :
    recordsAfterAV (sync_table e state0 rows fsd fv te).msgs = true
      ↔ ((mdGet e "replication-key").truthy = true
        ∨ lookupBms state0 e.tap_stream_id = none) := by
  by_cases hcols : cols e = []
  · simp [sync_table, hcols, countRecords] at hrec
  by_cases hsplit : e.table.data.count '.' = 1
  · rw [sync_table_eq_body e state0 rows fsd fv te hcols hsplit] at hrec ⊢
    by_cases hcond : ((mdGet e "replication-key").truthy = true
        ∨ lookupBms state0 e.tap_stream_id = none)
    · simp only [hcond, iff_true]
      by_cases hq : rkv_check e (st1Of e state0 fv) e.tap_stream_id
          (mdGet e "replication-key") fsd = true
      · by_cases hlok : (loopOut e state0 fv te rows).ok = true
        · by_cases hrkt : (mdGet e "replication-key").truthy = true
          · rw [sync_table_body_ok_truthy e state0 rows fsd fv te hq hlok hrkt]
            exact recordsAfterAV_av _ _ _
          · have hrkt' : (mdGet e "replication-key").truthy = false := by
              simpa using hrkt
            have hbm : lookupBms state0 e.tap_stream_id = none := by
              rcases hcond with h | h
              · exact absurd h hrkt
              · exact h
            rw [sync_table_body_ok_full e state0 rows fsd fv te hq hlok hrkt',
              if_pos hbm]
            exact recordsAfterAV_av _ _ _
        · have hlok' : (loopOut e state0 fv te rows).ok = false := by
            simpa using hlok
          rw [sync_table_body_loop_crash e state0 rows fsd fv te hq hlok',
            if_pos hcond]
          exact recordsAfterAV_av _ _ _
      · have hq' : rkv_check e (st1Of e state0 fv) e.tap_stream_id
            (mdGet e "replication-key") fsd = false := by simpa using hq
        rw [sync_table_body_rkv_fail e state0 rows fsd fv te hq', if_pos hcond]
        exact recordsAfterAV_av _ _ _
    · simp only [hcond, iff_false]
      have hrkt : (mdGet e "replication-key").truthy = false := by
        rcases Bool.eq_false_or_eq_true (mdGet e "replication-key").truthy with
          h | h
        · exact absurd (Or.inl h) hcond
        · exact h
      have hbm : ¬lookupBms state0 e.tap_stream_id = none :=
        fun h => hcond (Or.inr h)
      by_cases hq : rkv_check e (st1Of e state0 fv) e.tap_stream_id
          (mdGet e "replication-key") fsd = true
      · by_cases hlok : (loopOut e state0 fv te rows).ok = true
        · rw [sync_table_body_ok_full e state0 rows fsd fv te hq hlok hrkt,
            if_neg hbm] at hrec ⊢
          cases rows with
          | nil =>
              simp [loopOut, sync_rows_nil, countRecords, isRecord] at hrec
          | cons row rest =>
              obtain ⟨tail, htail⟩ := sync_rows_cons_msgs e
                (mdGet e "replication-key")
                (get_stream_version e.tap_stream_id state0 fv) te
                (st1Of e state0 fv) 0 row rest
              rw [show (loopOut e state0 fv te (row :: rest)).msgs
                = Msg.recordMsg e.tap_stream_id (mkRecord (cols e) row)
                    (get_stream_version e.tap_stream_id state0 fv) te :: tail
                from htail]
              simp [recordsAfterAV, isRecord]
        · have hlok' : (loopOut e state0 fv te rows).ok = false := by
            simpa using hlok
          rw [sync_table_body_loop_crash e state0 rows fsd fv te hq hlok',
            if_neg hcond] at hrec ⊢
          cases rows with
          | nil =>
              simp [loopOut, sync_rows_nil, countRecords] at hrec
          | cons row rest =>
              obtain ⟨tail, htail⟩ := sync_rows_cons_msgs e
                (mdGet e "replication-key")
                (get_stream_version e.tap_stream_id state0 fv) te
                (st1Of e state0 fv) 0 row rest
              rw [show (loopOut e state0 fv te (row :: rest)).msgs
                = Msg.recordMsg e.tap_stream_id (mkRecord (cols e) row)
                    (get_stream_version e.tap_stream_id state0 fv) te :: tail
                from htail]
              simp [recordsAfterAV, isRecord]
      · have hq' : rkv_check e (st1Of e state0 fv) e.tap_stream_id
            (mdGet e "replication-key") fsd = false := by simpa using hq
        rw [sync_table_body_rkv_fail e state0 rows fsd fv te hq',
          if_neg hcond] at hrec
        simp [countRecords] at hrec
  · simp [sync_table, hcols, hsplit, countRecords] at hrec

/-- Witness for the amended C1: a one-row first run emits a `RECORD` and the
equivalence holds. -/
theorem sync_table_activate_before_records_witness :
    countRecords (sync_table exEntry ({} : TapState) [[Val.i 1]] none 7 "T").msgs
        ≠ 0
    ∧ (recordsAfterAV
        (sync_table exEntry ({} : TapState) [[Val.i 1]] none 7 "T").msgs = true
      ↔ ((mdGet exEntry "replication-key").truthy = true
        ∨ lookupBms ({} : TapState) exEntry.tap_stream_id = none)) :=
  ⟨by decide, sync_table_activate_before_records exEntry {} [[Val.i 1]] none 7
    "T" (by decide)⟩

/-! ## Claim C2: completion behavior of sync_table -/

theorem countRecords_no_av (l : List Msg) (h : ∀ m ∈ l, isAV m = false) :
    countAV l = 0 := by
  simp only [countAV, List.length_eq_zero, List.filter_eq_nil_iff]
  intro m hm
  simp [h m hm]

/-- C2: a completed sync without a truthy replication key ends with the
trailing `ACTIVATE_VERSION` (carrying the stream version persisted at
start) directly followed by the final `STATE` whose version bookmark is
null; a completed sync with a truthy replication key emits no
`ACTIVATE_VERSION` besides the leading one and ends with a final `STATE`
whose version bookmark still equals the version persisted at start. -/
theorem sync_table_completion (e : CatalogEntry) (state0 : TapState)
    (rows : List (List Val)) (fsd : Option String) (fv : Int) (te : String)
    (hcols : ¬cols e = [])
    (hok : (sync_table e state0 rows fsd fv te).ok = true) :
    ((mdGet e "replication-key").truthy = true →
      ∃ ms stF, (sync_table e state0 rows fsd fv te).msgs
          = Msg.activateVersionMsg e.tap_stream_id
              (get_stream_version e.tap_stream_id state0 fv)
            :: (ms ++ [Msg.stateMsg stF])
        ∧ (∀ m ∈ ms, isAV m = false)
        ∧ bmEntryLookup stF e.tap_stream_id "version"
            = some (get_stream_version e.tap_stream_id state0 fv))
    ∧ ((mdGet e "replication-key").truthy = false →
      ∃ ms stF, (sync_table e state0 rows fsd fv te).msgs
          = ms ++ [Msg.activateVersionMsg e.tap_stream_id
              (get_stream_version e.tap_stream_id state0 fv),
              Msg.stateMsg stF]
        ∧ bmEntryLookup stF e.tap_stream_id "version" = some Val.null) := by
  by_cases hsplit : e.table.data.count '.' = 1
  · rw [sync_table_eq_body e state0 rows fsd fv te hcols hsplit] at hok ⊢
    by_cases hq : rkv_check e (st1Of e state0 fv) e.tap_stream_id
        (mdGet e "replication-key") fsd = true
    · by_cases hlok : (loopOut e state0 fv te rows).ok = true
      · constructor
        · intro hrkt
          rw [sync_table_body_ok_truthy e state0 rows fsd fv te hq hlok hrkt]
          refine ⟨(loopOut e state0 fv te rows).msgs,
            (loopOut e state0 fv te rows).state, rfl,
            sync_rows_no_av e _ _ te rows _ 0, ?_⟩
          rw [show (loopOut e state0 fv te rows).state
            = (sync_rows e (mdGet e "replication-key")
                (get_stream_version e.tap_stream_id state0 fv) te
                (st1Of e state0 fv) 0 rows).state from rfl]
          rw [sync_rows_state_keys e _ _ te rows (st1Of e state0 fv) 0
            e.tap_stream_id "version" (by decide)]
          exact bmEntryLookup_write_self state0 e.tap_stream_id "version" _
        · intro hrkt
          rw [sync_table_body_ok_full e state0 rows fsd fv te hq hlok hrkt]
          refine ⟨(if lookupBms state0 e.tap_stream_id = none then
              [Msg.activateVersionMsg e.tap_stream_id
                (get_stream_version e.tap_stream_id state0 fv)]
            else []) ++ (loopOut e state0 fv te rows).msgs,
            write_bookmark (loopOut e state0 fv te rows).state
              e.tap_stream_id "version" Val.null, ?_, ?_⟩
          · simp [List.append_assoc]
          · exact bmEntryLookup_write_self _ e.tap_stream_id "version" _
      · rw [sync_table_body_loop_crash e state0 rows fsd fv te hq
          (by simpa using hlok)] at hok
        simp at hok
    · rw [sync_table_body_rkv_fail e state0 rows fsd fv te
        (by simpa using hq)] at hok
      simp at hok
  · simp [sync_table, hcols, hsplit] at hok

/-- Witness for C2 at a concrete full-table run. -/
theorem sync_table_completion_witness :
    ((mdGet exEntry "replication-key").truthy = true →
      ∃ ms stF, (sync_table exEntry exStateWithVersion [[Val.i 1]] none 7
          "T").msgs
          = Msg.activateVersionMsg exEntry.tap_stream_id
              (get_stream_version exEntry.tap_stream_id exStateWithVersion 7)
            :: (ms ++ [Msg.stateMsg stF])
        ∧ (∀ m ∈ ms, isAV m = false)
        ∧ bmEntryLookup stF exEntry.tap_stream_id "version"
            = some (get_stream_version exEntry.tap_stream_id
                exStateWithVersion 7))
    ∧ ((mdGet exEntry "replication-key").truthy = false →
      ∃ ms stF, (sync_table exEntry exStateWithVersion [[Val.i 1]] none 7
          "T").msgs
          = ms ++ [Msg.activateVersionMsg exEntry.tap_stream_id
              (get_stream_version exEntry.tap_stream_id exStateWithVersion 7),
              Msg.stateMsg stF]
        ∧ bmEntryLookup stF exEntry.tap_stream_id "version"
            = some Val.null) :=
  sync_table_completion exEntry exStateWithVersion [[Val.i 1]] none 7 "T"
    (by decide) (by decide)

/-! ## Claim C3: first run of a full-table stream -/

/-- Counterexample to C3 as stated: on the first run of a full-table stream
the tap emits `ACTIVATE_VERSION` twice — once before the records (the
bookmark is empty) and once after them — so the sequence does not contain
exactly one `ACTIVATE_VERSION`, and an `ACTIVATE_VERSION` precedes the
`RECORD` messages. -/
theorem sync_table_first_run_two_av_cex :
    countAV (sync_table exEntry ({} : TapState) [[Val.i 1]] none 7 "T").msgs
      = 2
    ∧ (sync_table exEntry ({} : TapState) [[Val.i 1]] none 7 "T").msgs
      = [Msg.activateVersionMsg "db.public.t" (Val.i 7),
         Msg.recordMsg "db.public.t" [("id", Val.i 1)] (Val.i 7) "T",
         Msg.activateVersionMsg "db.public.t" (Val.i 7),
         Msg.stateMsg ⟨none, some [("db.public.t",
           [("version", Val.null)])]⟩] := by
  constructor
  · decide
  · decide

/-- C3 amended: on the first run of a full-table stream (no replication
key, no prior bookmark entry) the sync emits exactly two `ACTIVATE_VERSION`
messages — one before all `RECORD` messages and one directly before the
final `STATE`, after all `RECORD` messages — and the final state's version
bookmark is null, so the next run mints a new version. -/
theorem sync_table_first_run_full_table (e : CatalogEntry)
    (state0 : TapState) (rows : List (List Val)) (fsd : Option String)
    (fv : Int) (te : String)
    (hcols : ¬cols e = []) (hsplit : e.table.data.count '.' = 1)
    (hrk : mdGet e "replication-key" = Val.null)
    (hbm : lookupBms state0 e.tap_stream_id = none) :
    ∃ ms stF, (sync_table e state0 rows fsd fv te).msgs
        = Msg.activateVersionMsg e.tap_stream_id
            (get_stream_version e.tap_stream_id state0 fv)
          :: (ms ++ [Msg.activateVersionMsg e.tap_stream_id
              (get_stream_version e.tap_stream_id state0 fv),
              Msg.stateMsg stF])
      ∧ (∀ m ∈ ms, isAV m = false)
      ∧ countAV (sync_table e state0 rows fsd fv te).msgs = 2
      ∧ countRecords ms = rows.length
      ∧ bmEntryLookup stF e.tap_stream_id "version" = some Val.null := by
  have hrkt : (mdGet e "replication-key").truthy = false := by
    rw [hrk]; rfl
  have hq : rkv_check e (st1Of e state0 fv) e.tap_stream_id
      (mdGet e "replication-key") fsd = true := by
    rw [hrk]; rfl
  have hlok : (loopOut e state0 fv te rows).ok = true := by
    rw [show loopOut e state0 fv te rows
      = sync_rows e (mdGet e "replication-key")
          (get_stream_version e.tap_stream_id state0 fv) te
          (st1Of e state0 fv) 0 rows from rfl, hrk]
    exact sync_rows_ok_null e _ te rows _ 0
  rw [sync_table_eq_body e state0 rows fsd fv te hcols hsplit,
    sync_table_body_ok_full e state0 rows fsd fv te hq hlok hrkt, if_pos hbm]
  have hnoav : ∀ m ∈ (loopOut e state0 fv te rows).msgs, isAV m = false :=
    sync_rows_no_av e _ _ te rows _ 0
  refine ⟨(loopOut e state0 fv te rows).msgs,
    write_bookmark (loopOut e state0 fv te rows).state e.tap_stream_id
      "version" Val.null, by simp, hnoav, ?_, ?_, ?_⟩
  · simp only [countAV, List.filter_append, List.filter_cons, isAV,
      List.length_append]
    have : countAV (loopOut e state0 fv te rows).msgs = 0 :=
      countRecords_no_av _ hnoav
    simp only [countAV] at this
    simp [this]
  · have hcnt := sync_rows_ok_records e (mdGet e "replication-key")
      (get_stream_version e.tap_stream_id state0 fv) te rows
      (st1Of e state0 fv) 0 hlok
    exact hcnt
  · exact bmEntryLookup_write_self _ e.tap_stream_id "version" _

/-- Witness for the amended C3 at a concrete one-row first run. -/
theorem sync_table_first_run_full_table_witness :
    ∃ ms stF, (sync_table exEntry ({} : TapState) [[Val.i 1]] none 7 "T").msgs
        = Msg.activateVersionMsg exEntry.tap_stream_id
            (get_stream_version exEntry.tap_stream_id ({} : TapState) 7)
          :: (ms ++ [Msg.activateVersionMsg exEntry.tap_stream_id
              (get_stream_version exEntry.tap_stream_id ({} : TapState) 7),
              Msg.stateMsg stF])
      ∧ (∀ m ∈ ms, isAV m = false)
      ∧ countAV (sync_table exEntry ({} : TapState) [[Val.i 1]] none 7
          "T").msgs = 2
      ∧ countRecords ms = [[Val.i 1]].length
      ∧ bmEntryLookup stF exEntry.tap_stream_id "version" = some Val.null :=
  sync_table_first_run_full_table exEntry {} [[Val.i 1]] none 7 "T"
    (by decide) (by decide) (by decide) (by decide)

/-! ## Claim C8: state checkpoints every 1000 records -/

theorem countRecords_av_cons (t : String) (v : Val) (l : List Msg) :
    countRecords (Msg.activateVersionMsg t v :: l) = countRecords l := by
  simp [countRecords, List.filter_cons, isRecord]

theorem countRecords_state_cons (st : TapState) (l : List Msg) :
    countRecords (Msg.stateMsg st :: l) = countRecords l := by
  simp [countRecords, List.filter_cons, isRecord]

theorem countRecords_pre (c : Prop) [Decidable c] (t : String) (v : Val) :
    countRecords (if c then [Msg.activateVersionMsg t v] else []) = 0 := by
  split <;> simp [countRecords, isRecord]

/-- C8: in a successfully completed sync, right after the `n`-th `RECORD`
message (for every positive multiple `n` of 1000 within the result set)
comes a `STATE` message whose value is exactly the state of the row loop
run on the first `n` rows alone — the snapshot is fully determined by the
already-emitted prefix, so later bookmark mutations cannot alter it. -/
theorem sync_table_checkpoint_every_1000 (e : CatalogEntry)
    (state0 : TapState) (rows : List (List Val)) (fsd : Option String)
    (fv : Int) (te : String) (n : Nat)
    (hn : n % 1000 = 0) (h0 : 0 < n) (hlen : n ≤ rows.length)
    (hcols : ¬cols e = [])
    (hok : (sync_table e state0 rows fsd fv te).ok = true) :
    ∃ front rest, (sync_table e state0 rows fsd fv te).msgs
        = front ++ Msg.stateMsg (loopOut e state0 fv te (rows.take n)).state
          :: rest
      ∧ countRecords front = n
      ∧ ∃ f r, front = f ++ [r] ∧ isRecord r = true := by
  by_cases hsplit : e.table.data.count '.' = 1
  · rw [sync_table_eq_body e state0 rows fsd fv te hcols hsplit] at hok ⊢
    by_cases hq : rkv_check e (st1Of e state0 fv) e.tap_stream_id
        (mdGet e "replication-key") fsd = true
    · by_cases hlok : (loopOut e state0 fv te rows).ok = true
      · have hloop : loopOut e state0 fv te rows
            = sync_rows e (mdGet e "replication-key")
              (get_stream_version e.tap_stream_id state0 fv) te
              (st1Of e state0 fv) 0 (rows.take n ++ rows.drop n) := by
          rw [List.take_append_drop]
          rfl
        have hdecomp : sync_rows e (mdGet e "replication-key")
            (get_stream_version e.tap_stream_id state0 fv) te
            (st1Of e state0 fv) 0 (rows.take n ++ rows.drop n)
            = (if (loopOut e state0 fv te (rows.take n)).ok = true then
                ⟨(loopOut e state0 fv te (rows.take n)).msgs
                  ++ (sync_rows e (mdGet e "replication-key")
                      (get_stream_version e.tap_stream_id state0 fv) te
                      (loopOut e state0 fv te (rows.take n)).state
                      (0 + (rows.take n).length) (rows.drop n)).msgs,
                 (sync_rows e (mdGet e "replication-key")
                   (get_stream_version e.tap_stream_id state0 fv) te
                   (loopOut e state0 fv te (rows.take n)).state
                   (0 + (rows.take n).length) (rows.drop n)).state,
                 (sync_rows e (mdGet e "replication-key")
                   (get_stream_version e.tap_stream_id state0 fv) te
                   (loopOut e state0 fv te (rows.take n)).state
                   (0 + (rows.take n).length) (rows.drop n)).ok⟩
              else loopOut e state0 fv te (rows.take n)) :=
          sync_rows_append e (mdGet e "replication-key")
            (get_stream_version e.tap_stream_id state0 fv) te
            (rows.take n) (rows.drop n) (st1Of e state0 fv) 0
        have h1ok : (loopOut e state0 fv te (rows.take n)).ok = true := by
          by_contra hcontra
          have heq : loopOut e state0 fv te rows
              = loopOut e state0 fv te (rows.take n) := by
            rw [hloop, hdecomp, if_neg hcontra]
          rw [heq] at hlok
          exact hcontra hlok
        have hfull : (loopOut e state0 fv te rows).msgs
            = (loopOut e state0 fv te (rows.take n)).msgs
              ++ (sync_rows e (mdGet e "replication-key")
                  (get_stream_version e.tap_stream_id state0 fv) te
                  (loopOut e state0 fv te (rows.take n)).state
                  (0 + (rows.take n).length) (rows.drop n)).msgs := by
          rw [hloop, hdecomp, if_pos h1ok]
        have htake_len : (rows.take n).length = n := by
          rw [List.length_take]
          omega
        have htake_ne : rows.take n ≠ [] := by
          intro hcontra
          rw [hcontra] at htake_len
          simp at htake_len
          omega
        obtain ⟨body, r, hr, hmsgs0⟩ := sync_rows_last_cp e
          (mdGet e "replication-key")
          (get_stream_version e.tap_stream_id state0 fv) te
          (rows.take n) (st1Of e state0 fv) 0 htake_ne
          (by rw [htake_len]; simpa using hn) h1ok
        have hmsgs : (loopOut e state0 fv te (rows.take n)).msgs
            = body ++ [r, Msg.stateMsg
              (loopOut e state0 fv te (rows.take n)).state] := hmsgs0
        have hcnt : countRecords (loopOut e state0 fv te (rows.take n)).msgs
            = n := by
          have h := sync_rows_ok_records e (mdGet e "replication-key")
            (get_stream_version e.tap_stream_id state0 fv) te
            (rows.take n) (st1Of e state0 fv) 0 h1ok
          rw [htake_len] at h
          exact h
        have hmsgs' : (loopOut e state0 fv te (rows.take n)).msgs
            = (body ++ [r])
              ++ [Msg.stateMsg (loopOut e state0 fv te (rows.take n)).state] := by
          rw [hmsgs]
          simp
        have hcnt2 : countRecords (body ++ [r]) = n := by
          rw [hmsgs'] at hcnt
          rw [countRecords_append] at hcnt
          simpa [countRecords, isRecord] using hcnt
        by_cases hrkt : (mdGet e "replication-key").truthy = true
        · rw [sync_table_body_ok_truthy e state0 rows fsd fv te hq hlok hrkt,
            hfull, hmsgs']
          refine ⟨Msg.activateVersionMsg e.tap_stream_id
              (get_stream_version e.tap_stream_id state0 fv)
              :: (body ++ [r]),
            (sync_rows e (mdGet e "replication-key")
              (get_stream_version e.tap_stream_id state0 fv) te
              (loopOut e state0 fv te (rows.take n)).state
              (0 + (rows.take n).length) (rows.drop n)).msgs
              ++ [Msg.stateMsg (loopOut e state0 fv te rows).state],
            ?_, ?_, ?_⟩
          · simp [List.append_assoc]
          · rw [countRecords_av_cons]
            exact hcnt2
          · exact ⟨Msg.activateVersionMsg e.tap_stream_id
              (get_stream_version e.tap_stream_id state0 fv) :: body, r,
              rfl, hr⟩
        · have hrkt' : (mdGet e "replication-key").truthy = false := by
            simpa using hrkt
          rw [sync_table_body_ok_full e state0 rows fsd fv te hq hlok hrkt',
            hfull, hmsgs']
          refine ⟨(if lookupBms state0 e.tap_stream_id = none then
              [Msg.activateVersionMsg e.tap_stream_id
                (get_stream_version e.tap_stream_id state0 fv)]
            else []) ++ (body ++ [r]),
            (sync_rows e (mdGet e "replication-key")
              (get_stream_version e.tap_stream_id state0 fv) te
              (loopOut e state0 fv te (rows.take n)).state
              (0 + (rows.take n).length) (rows.drop n)).msgs
              ++ [Msg.activateVersionMsg e.tap_stream_id
                    (get_stream_version e.tap_stream_id state0 fv),
                  Msg.stateMsg (write_bookmark
                    (loopOut e state0 fv te rows).state
                    e.tap_stream_id "version" Val.null)],
            ?_, ?_, ?_⟩
          · simp [List.append_assoc]
          · rw [countRecords_append, countRecords_pre]
            simpa using hcnt2
          · exact ⟨(if lookupBms state0 e.tap_stream_id = none then
              [Msg.activateVersionMsg e.tap_stream_id
                (get_stream_version e.tap_stream_id state0 fv)]
            else []) ++ body, r, by simp, hr⟩
      · rw [sync_table_body_loop_crash e state0 rows fsd fv te hq
          (by simpa using hlok)] at hok
        simp at hok
    · rw [sync_table_body_rkv_fail e state0 rows fsd fv te
        (by simpa using hq)] at hok
      simp at hok
  · simp [sync_table, hcols, hsplit] at hok

/-- Witness for C8: a 1000-row full-table run checkpoints after its 1000th
record. -/
theorem sync_table_checkpoint_every_1000_witness :
    ∃ front rest,
      (sync_table exEntry ({} : TapState) exRows1000 none 7 "T").msgs
        = front ++ Msg.stateMsg
            (loopOut exEntry ({} : TapState) 7 "T" (exRows1000.take 1000)).state
          :: rest
      ∧ countRecords front = 1000
      ∧ ∃ f r, front = f ++ [r] ∧ isRecord r = true :=
  sync_table_checkpoint_every_1000 exEntry {} exRows1000 none 7 "T" 1000
    (by decide) (by decide) (by simp [exRows1000]) (by decide) (by decide)

/-! ## Claim C4: streams with zero selected columns -/

/-- Counterexample to C4 as stated: for a stream with zero selected columns
the run still emits messages — `generate_messages` yields the per-stream
`STATE` and `SCHEMA` messages before `sync_table` performs its
zero-column check. -/
theorem generate_messages_zero_columns_cex :
    cols exEntryNoCols = []
    ∧ (generate_messages [exRunNoCols] ({} : TapState) none).msgs.any
        (isSchemaFor "db.public.t") = true
    ∧ (generate_messages [exRunNoCols] ({} : TapState) none).msgs.any
        isState = true := by
  refine ⟨rfl, by decide, by decide⟩

/-- C4 amended: for a stream with zero selected columns, `sync_table`
itself emits nothing (no `ACTIVATE_VERSION`, no `RECORD`, no `STATE`),
leaves the state untouched and raises no error, but `generate_messages`
still emits that stream's `STATE` and `SCHEMA` messages before the skip,
and the remaining streams are processed normally. -/
theorem generate_messages_zero_columns (sr : StreamRun)
    (rest : List StreamRun) (state : TapState) (fsd : Option String)
    (hcols : sr.entry.properties = []) :
    sync_table sr.entry
        (set_currently_syncing state (Val.s sr.entry.tap_stream_id)) sr.rows
        fsd sr.fresh_version sr.time_extracted
      = ⟨[], set_currently_syncing state (Val.s sr.entry.tap_stream_id), true⟩
    ∧ (generate_messages (sr :: rest) state fsd).msgs
      = Msg.stateMsg (set_currently_syncing state
          (Val.s sr.entry.tap_stream_id))
        :: Msg.schemaMsg sr.entry.tap_stream_id sr.entry.properties
            (if (mdGet sr.entry "is-view").truthy then
              mdGet sr.entry "view-key-properties"
             else mdGet sr.entry "table-key-properties")
            (mdGet sr.entry "replication-key")
        :: (generate_messages rest (set_currently_syncing state
            (Val.s sr.entry.tap_stream_id)) fsd).msgs
    ∧ (generate_messages (sr :: rest) state fsd).ok
      = (generate_messages rest (set_currently_syncing state
          (Val.s sr.entry.tap_stream_id)) fsd).ok := by
  have hsync : sync_table sr.entry
      (set_currently_syncing state (Val.s sr.entry.tap_stream_id)) sr.rows
      fsd sr.fresh_version sr.time_extracted
      = ⟨[], set_currently_syncing state (Val.s sr.entry.tap_stream_id),
          true⟩ := by
    simp [sync_table, cols, hcols]
  refine ⟨hsync, ?_, ?_⟩ <;> simp [generate_messages, hsync]

/-- Witness for the amended C4 at the concrete zero-column stream. -/
theorem generate_messages_zero_columns_witness :
    sync_table exRunNoCols.entry
        (set_currently_syncing ({} : TapState)
          (Val.s exRunNoCols.entry.tap_stream_id)) exRunNoCols.rows
        none exRunNoCols.fresh_version exRunNoCols.time_extracted
      = ⟨[], set_currently_syncing ({} : TapState)
          (Val.s exRunNoCols.entry.tap_stream_id), true⟩
    ∧ (generate_messages [exRunNoCols] ({} : TapState) none).msgs
      = Msg.stateMsg (set_currently_syncing ({} : TapState)
          (Val.s exRunNoCols.entry.tap_stream_id))
        :: Msg.schemaMsg exRunNoCols.entry.tap_stream_id
            exRunNoCols.entry.properties
            (if (mdGet exRunNoCols.entry "is-view").truthy then
              mdGet exRunNoCols.entry "view-key-properties"
             else mdGet exRunNoCols.entry "table-key-properties")
            (mdGet exRunNoCols.entry "replication-key")
        :: (generate_messages [] (set_currently_syncing ({} : TapState)
            (Val.s exRunNoCols.entry.tap_stream_id)) none).msgs
    ∧ (generate_messages [exRunNoCols] ({} : TapState) none).ok
      = (generate_messages [] (set_currently_syncing ({} : TapState)
          (Val.s exRunNoCols.entry.tap_stream_id)) none).ok :=
  generate_messages_zero_columns exRunNoCols [] {} none (by decide)

end TapRedshift
